import Mathlib

/-!
Verification of the table-normalization pipeline, the heatmap aggregation and
the session selection state of the Guatemala accident-statistics dashboard.

Raw tables are modelled as a header (the list of column names) together with
rows, where every row is an association list from column name to cell.  A cell
is either missing (the pandas NaN), an integer, or a string; this covers every
value the cleaning functions in preprocesamiento_datos.py distinguish.  Pandas
raises KeyError when a referenced column is absent and ValueError when an
integer conversion fails; both are modelled by PdError, and every fallible
operation returns Except PdError.
-/

inductive Cell where
  | null : Cell
  | num  : Int → Cell
  | str  : String → Cell
deriving DecidableEq, Repr

inductive PdError where
  | keyError   : String → PdError
  | valueError : PdError
deriving DecidableEq, Repr

abbrev Row := List (String × Cell)

structure Table where
  cols : List String
  rows : List Row
deriving DecidableEq, Repr

instance {ε α : Type} [DecidableEq ε] [DecidableEq α] :
    DecidableEq (Except ε α) := fun a b =>
  match a, b with
  | .ok x, .ok y =>
      if h : x = y then isTrue (by rw [h])
      else isFalse (by intro hc; cases hc; exact h rfl)
  | .error e, .error f =>
      if h : e = f then isTrue (by rw [h])
      else isFalse (by intro hc; cases hc; exact h rfl)
  | .ok _, .error _ => isFalse (by intro hc; cases hc)
  | .error _, .ok _ => isFalse (by intro hc; cases hc)

/-- Value of column c in a row; a missing entry reads as NaN, as in pandas. -/
def lookupCell (r : Row) (c : String) : Cell := (r.lookup c).getD Cell.null

/-- Replace the value stored under key c, leaving other keys untouched. -/
def updKey {β : Type} (r : List (String × β)) (c : String) (x : β) :
    List (String × β) :=
  r.map (fun p => if p.1 = c then (p.1, x) else p)

/-- Remove every entry whose key is c. -/
def dropKey (r : Row) (c : String) : Row := r.filter (fun p => p.1 != c)

/-- df[df[c] != s]: keep the rows whose cell at column c differs from the
string s.  As in pandas, NaN compares as different from any string, so rows
with a missing cell are kept.  KeyError when the column is absent. -/
def filterNe (t : Table) (c s : String) : Except PdError Table :=
  if c ∈ t.cols then
    .ok ⟨t.cols, t.rows.filter (fun r => lookupCell r c != Cell.str s)⟩
  else .error (.keyError c)

/-- df.drop(c, axis=1): KeyError when the column is absent. -/
def dropCol (t : Table) (c : String) : Except PdError Table :=
  if c ∈ t.cols then
    .ok ⟨t.cols.filter (fun d => d != c), t.rows.map (fun r => dropKey r c)⟩
  else .error (.keyError c)

/-- The guarded drop used by the cleaning functions:
if c in df.columns: df = df.drop(c, axis=1).  Never fails. -/
def dropColIfPresent (t : Table) (c : String) : Table :=
  if c ∈ t.cols then
    ⟨t.cols.filter (fun d => d != c), t.rows.map (fun r => dropKey r c)⟩
  else t

/-- concatMap f l is the concatenation of f applied to every element,
matching how melt stacks one block of rows per value column. -/
def concatMap {α β : Type} (f : α → List β) : List α → List β
  | [] => []
  | a :: l => f a ++ concatMap f l

/-- One melted record: the identifier columns are copied, the variable column
holds the name of the value column and the value column holds its cell. -/
def meltRow (idVars : List String) (vn mn : String) (v : String) (r : Row) :
    Row :=
  idVars.map (fun c => (c, lookupCell r c)) ++
    [(vn, Cell.str v), (mn, lookupCell r v)]

/-- df.melt(id_vars, value_vars, var_name, value_name): wide-to-long
unrolling.  KeyError when a listed id or value column is absent; the output
stacks one block of rows per value column, as pandas does. -/
def melt (t : Table) (idVars valueVars : List String) (vn mn : String) :
    Except PdError Table :=
  match (idVars ++ valueVars).find? (fun c => !(t.cols.contains c)) with
  | some c => .error (.keyError c)
  | none =>
      .ok ⟨idVars ++ [vn, mn],
        concatMap (fun v => t.rows.map (meltRow idVars vn mn v)) valueVars⟩

/-- Value of a digit run, none as soon as a non-digit character appears. -/
def digitsValAux (acc : Nat) : List Char → Option Nat
  | [] => some acc
  | c :: cs =>
      if c.isDigit then digitsValAux (acc * 10 + (c.toNat - 48)) cs else none

/-- Python int() on a string: an optional minus sign followed by at least one
digit; anything else fails. -/
def parseInt (s : String) : Option Int :=
  match s.data with
  | [] => none
  | c :: cs =>
      if c = '-' then
        match cs with
        | [] => none
        | _ => (digitsValAux 0 cs).map (fun n => -(n : Int))
      else (digitsValAux 0 (c :: cs)).map (fun n => (n : Int))

/-- Integer coercion of a single cell, as Python int() inside astype(int):
integers pass through, strings are parsed, NaN and unparsable strings fail. -/
def coerceInt : Cell → Option Int
  | .num n => some n
  | .str s => parseInt s
  | .null  => none

/-- df[c].astype(int): ValueError as soon as one cell of the column fails the
conversion, otherwise every cell of the column is replaced by its integer. -/
def astypeInt (t : Table) (c : String) : Except PdError Table :=
  if c ∈ t.cols then
    if t.rows.all (fun r => (coerceInt (lookupCell r c)).isSome) then
      .ok ⟨t.cols,
        t.rows.map (fun r =>
          updKey r c (Cell.num ((coerceInt (lookupCell r c)).getD 0)))⟩
    else .error .valueError
  else .error (.keyError c)

/-- df.dropna(subset=[c]): remove the rows whose cell at column c is NaN. -/
def dropnaCol (t : Table) (c : String) : Except PdError Table :=
  if c ∈ t.cols then
    .ok ⟨t.cols, t.rows.filter (fun r => lookupCell r c != Cell.null)⟩
  else .error (.keyError c)

def yearCols : List String := ["2020", "2021", "2022", "2023", "2024"]

def diaCols : List String :=
  ["lunes", "martes", "miercoles", "jueves", "viernes", "sabado", "domingo"]

def tipoCols : List String :=
  ["colision", "atropello", "derrape", "choque", "vuelco", "embarranco",
   "encuneto", "caida", "ignorado"]

/-- limpiar_cuadro1 (preprocesamiento_datos.py, lines 4-33): drop the Total
row, drop fuente_cuadro when present, melt the year columns, convert the year
to integer, drop rows with a missing accident count, convert the count. -/
def limpiar_cuadro1 (df : Table) : Except PdError Table := do
  let t1 ← filterNe df "departamento" "Total"
  let t2 := dropColIfPresent t1 "fuente_cuadro"
  let t3 ← melt t2 ["departamento"] yearCols "año" "accidentes"
  let t4 ← astypeInt t3 "año"
  let t5 ← dropnaCol t4 "accidentes"
  astypeInt t5 "accidentes"

/-- limpiar_cuadro3 (lines 36-58): drop the Total row, drop fuente_cuadro when
present, melt the weekday columns keeping total as an id column, then drop the
total column.  No null-dropping and no integer conversion are applied. -/
def limpiar_cuadro3 (df : Table) : Except PdError Table := do
  let t1 ← filterNe df "departamento" "Total"
  let t2 := dropColIfPresent t1 "fuente_cuadro"
  let t3 ← melt t2 ["departamento", "total"] diaCols "dia_semana" "accidentes"
  dropCol t3 "total"

/-- First match of the regular expression (\d+): used on line 88: the earliest
maximal digit run that is immediately followed by a colon.  The first argument
accumulates the digit run seen so far, in reverse. -/
def extractDigits : List Char → List Char → Option (List Char)
  | _, [] => none
  | acc, ch :: rest =>
    if ch == ':' && !(acc.isEmpty) then some acc.reverse
    else if ch.isDigit then extractDigits (ch :: acc) rest
    else extractDigits [] rest

/-- df[c].str.extract((\d+):) on one cell: the captured digits parsed as an
integer; non-string cells and non-matching strings give NaN (modelled none). -/
def extractHora : Cell → Option Int
  | .str s => (extractDigits [] s.data).bind (fun ds => parseInt (String.mk ds))
  | _ => none

/-- Line 88 of limpiar_cuadro7:
df_long[hora_num] = df_long[hora_de_ocurrencia].str.extract((\d+):).astype(int).
The astype(int) raises ValueError when any extraction came back NaN. -/
def addHoraNum (t : Table) : Except PdError Table :=
  if "hora_de_ocurrencia" ∈ t.cols then
    if t.rows.all
        (fun r => (extractHora (lookupCell r "hora_de_ocurrencia")).isSome) then
      .ok ⟨t.cols ++ ["hora_num"],
        t.rows.map (fun r =>
          r ++ [("hora_num",
            Cell.num ((extractHora (lookupCell r "hora_de_ocurrencia")).getD 0))])⟩
    else .error .valueError
  else .error (.keyError "hora_de_ocurrencia")

/-- Lines 66-84 of limpiar_cuadro7: the two sentinel-row filters, the guarded
column drop, the weekday melt and the drop of the total column. -/
def cuadro7_pre (df : Table) : Except PdError Table := do
  let t1 ← filterNe df "hora_de_ocurrencia" "Total"
  let t2 ← filterNe t1 "hora_de_ocurrencia" "Ignorada"
  let t3 := dropColIfPresent t2 "fuente_cuadro"
  let t4 ← melt t3 ["hora_de_ocurrencia", "total"] diaCols "dia_semana"
    "accidentes"
  dropCol t4 "total"

/-- limpiar_cuadro7 (lines 61-90): the melt pipeline followed by the derived
hora_num column. -/
def limpiar_cuadro7 (df : Table) : Except PdError Table := do
  let t ← cuadro7_pre df
  addHoraNum t

/-- The month lookup table of limpiar_cuadro9 (lines 117-121). -/
def mesesDict : List (String × Int) :=
  [("Enero", 1), ("Febrero", 2), ("Marzo", 3), ("Abril", 4), ("Mayo", 5),
   ("Junio", 6), ("Julio", 7), ("Agosto", 8), ("Septiembre", 9),
   ("Octubre", 10), ("Noviembre", 11), ("Diciembre", 12)]

/-- Series.map(meses_dict) on one cell: unknown months and non-string cells
map to NaN, no exception is ever raised. -/
def mapMes : Cell → Cell
  | .str s =>
      match mesesDict.lookup s with
      | some n => Cell.num n
      | none => Cell.null
  | _ => Cell.null

/-- Line 122 of limpiar_cuadro9:
df_long[mes_num] = df_long[mes_de_ocurrencia].map(meses_dict). -/
def addMesNum (t : Table) : Except PdError Table :=
  if "mes_de_ocurrencia" ∈ t.cols then
    .ok ⟨t.cols ++ ["mes_num"],
      t.rows.map (fun r =>
        r ++ [("mes_num", mapMes (lookupCell r "mes_de_ocurrencia"))])⟩
  else .error (.keyError "mes_de_ocurrencia")

/-- limpiar_cuadro9 (lines 93-124): drop the Total row, drop fuente_cuadro
when present, melt the accident-type columns, drop total, map month names. -/
def limpiar_cuadro9 (df : Table) : Except PdError Table := do
  let t1 ← filterNe df "mes_de_ocurrencia" "Total"
  let t2 := dropColIfPresent t1 "fuente_cuadro"
  let t3 ← melt t2 ["mes_de_ocurrencia", "total"] tipoCols "tipo_accidente"
    "cantidad"
  let t4 ← dropCol t3 "total"
  addMesNum t4

/-- limpiar_cuadro31 (lines 127-148): same shape as limpiar_cuadro1 with the
lesionados measure. -/
def limpiar_cuadro31 (df : Table) : Except PdError Table := do
  let t1 ← filterNe df "departamento" "Total"
  let t2 := dropColIfPresent t1 "fuente_cuadro"
  let t3 ← melt t2 ["departamento"] yearCols "año" "lesionados"
  let t4 ← astypeInt t3 "año"
  let t5 ← dropnaCol t4 "lesionados"
  astypeInt t5 "lesionados"

/-- limpiar_cuadro47 (lines 151-175): same shape as limpiar_cuadro1 with the
fallecidos measure and three optionally-present columns to drop. -/
def limpiar_cuadro47 (df : Table) : Except PdError Table := do
  let t1 ← filterNe df "departamento" "Total"
  let t2 := dropColIfPresent
    (dropColIfPresent (dropColIfPresent t1 "fuente_cuadro") "Unnamed: 6")
    "col_10"
  let t3 ← melt t2 ["departamento"] yearCols "año" "fallecidos"
  let t4 ← astypeInt t3 "año"
  let t5 ← dropnaCol t4 "fallecidos"
  astypeInt t5 "fallecidos"

/-- limpiar_cuadro18 (lines 177-202): drop the Total row, drop the two
optionally-present columns, melt the accident-type columns, drop total.
No null-dropping and no integer conversion are applied. -/
def limpiar_cuadro18 (df : Table) : Except PdError Table := do
  let t1 ← filterNe df "tipo_de_vehiculo" "Total"
  let t2 := dropColIfPresent (dropColIfPresent t1 "fuente_cuadro") "col_12"
  let t3 ← melt t2 ["tipo_de_vehiculo", "total"] tipoCols "tipo_accidente"
    "cantidad"
  dropCol t3 "total"

/-- limpiar_cuadro38 (lines 205-216): drop the Total row of the age-group
table and drop fuente_cuadro when present; nothing else. -/
def limpiar_cuadro38 (df : Table) : Except PdError Table := do
  let t1 ← filterNe df "grupos_de_edad" "Total"
  pure (dropColIfPresent t1 "fuente_cuadro")

/-- limpiar_cuadro54 (lines 219-230): identical to limpiar_cuadro38. -/
def limpiar_cuadro54 (df : Table) : Except PdError Table := do
  let t1 ← filterNe df "grupos_de_edad" "Total"
  pure (dropColIfPresent t1 "fuente_cuadro")

/-!
The heatmap view (dashboard.py, crear_vis4_heatmap, lines 329-371).  The
pivot_table groups the records by hour label and weekday and sums the measure;
df_pivot[dias_ordenados] then selects the weekday columns in the fixed order
and raises KeyError when a listed weekday produced no pivot column; finally,
when the hora_num column is present, the rows are reindexed by the hour keys.
Sums are over the numeric cells of the accidentes column, missing values being
skipped, as the upstream CSV load produces numeric-or-NaN measures.  The
initial lexicographic sort of the pivot axes is irrelevant here: the weekday
axis is reindexed into diasOrdenados and the hour axis into the hora_num
order, so the pivot index is kept in first-appearance order.
-/

def diasOrdenados : List String :=
  ["lunes", "martes", "miercoles", "jueves", "viernes", "sabado", "domingo"]

structure Heatmap where
  xcols : List String
  yindex : List Cell
  z : List (List (Option Int))
deriving DecidableEq, Repr

/-- First-occurrence deduplication, as pandas drop_duplicates and the set of
group keys of a pivot; the first argument accumulates the keys already seen. -/
def dedupKeepAux {α : Type} [DecidableEq α] (seen : List α) :
    List α → List α
  | [] => []
  | a :: l =>
      if a ∈ seen then dedupKeepAux seen l
      else a :: dedupKeepAux (a :: seen) l

def dedupKeep {α : Type} [DecidableEq α] (l : List α) : List α :=
  dedupKeepAux [] l

/-- The rows that take part in the pivot: pivot_table silently drops records
whose hour or weekday key is NaN. -/
def validRows (t : Table) : List Row :=
  t.rows.filter (fun r =>
    lookupCell r "hora_de_ocurrencia" != Cell.null &&
      lookupCell r "dia_semana" != Cell.null)

def diasPresentes (t : Table) : List Cell :=
  dedupKeep ((validRows t).map (fun r => lookupCell r "dia_semana"))

def horasPresentes (t : Table) : List Cell :=
  dedupKeep ((validRows t).map (fun r => lookupCell r "hora_de_ocurrencia"))

def cellNum : Cell → Int
  | .num n => n
  | _ => 0

/-- One pivot cell: the sum of the accidentes values of the records in the
(hour, weekday) group, none when the group is empty (the NaN of the grid). -/
def cellSum (t : Table) (h d : Cell) : Option Int :=
  let g := (validRows t).filter (fun r =>
    lookupCell r "hora_de_ocurrencia" == h && lookupCell r "dia_semana" == d)
  if g.isEmpty then none
  else some ((g.map (fun r => cellNum (lookupCell r "accidentes"))).sum)

/-- Sort key of sort_values(hora_num): numeric keys ascending, NaN last. -/
def horaKeyLe (a b : Cell × Cell) : Bool :=
  match a.2, b.2 with
  | Cell.num m, Cell.num n => m ≤ n
  | Cell.num _, _ => true
  | _, Cell.num _ => false
  | _, _ => true

/-- Stable insertion into a sorted list, placing the new element before the
first element it compares le to, so earlier elements keep their order. -/
def insertS {α : Type} (le : α → α → Bool) (a : α) : List α → List α
  | [] => [a]
  | b :: l => if le a b then a :: b :: l else b :: insertS le a l

/-- Stable insertion sort, standing in for the stable sort of sort_values. -/
def sortS {α : Type} (le : α → α → Bool) : List α → List α
  | [] => []
  | a :: l => insertS le a (sortS le l)

/-- Lines 345-346: df_filtrado[[hora_de_ocurrencia, hora_num]]
.drop_duplicates().sort_values(hora_num), keeping the hour labels. -/
def ordenHoras (t : Table) : List Cell :=
  (sortS horaKeyLe (dedupKeep (t.rows.map (fun r =>
    (lookupCell r "hora_de_ocurrencia", lookupCell r "hora_num"))))).map
    Prod.fst

/-- crear_vis4_heatmap (dashboard.py, lines 329-371), up to the Heatmap data:
pivot by hour and weekday summing accidentes, select the weekday columns in
the fixed order (KeyError when a weekday is absent from the pivot), reindex
the rows by hora_num when that column exists; a reindexed hour label with no
pivot row yields an all-NaN row, and an empty (hour, weekday) group a NaN
cell. -/
def crear_vis4_heatmap (t : Table) : Except PdError Heatmap :=
  match ["accidentes", "hora_de_ocurrencia", "dia_semana"].find?
      (fun c => !(t.cols.contains c)) with
  | some c => .error (.keyError c)
  | none =>
      match diasOrdenados.find?
          (fun d => !((diasPresentes t).contains (Cell.str d))) with
      | some d => .error (.keyError d)
      | none =>
          let yidx :=
            if "hora_num" ∈ t.cols then ordenHoras t else horasPresentes t
          .ok ⟨diasOrdenados, yidx,
            yidx.map (fun hl =>
              diasOrdenados.map (fun d =>
                if hl ∈ horasPresentes t then cellSum t hl (Cell.str d)
                else none))⟩

/-!
The cross-filter selection state (dashboard.py).  Streamlit session state is a
per-session mutable mapping from string keys to values; the dashboard stores
one optional selection per slot in it (lines 39-46 initialize the three slots
to None).  Assigning any key, present or not, succeeds: a present key is
overwritten in place, an absent key is created.  The state is modelled as an
association list from slot name to optional selected value.
-/

abbrev SState := List (String × Option String)

/-- Lines 39-46: the three selection slots start out empty. -/
def initSessionState : SState :=
  [("departamento_seleccionado", none),
   ("tipo_accidente_seleccionado", none),
   ("tipo_vehiculo_seleccionado", none)]

/-- st.session_state[k] = v: overwrite the slot when present, create it
otherwise.  No slot-name validation exists anywhere in the dashboard. -/
def setSlot (s : SState) (k : String) (v : Option String) : SState :=
  if (s.lookup k).isSome then updKey s k v else s ++ [(k, v)]

/-- Reading a slot: the stored optional value, none when the key is absent. -/
def getSlot (s : SState) (k : String) : Option String := (s.lookup k).getD none

/-- Clearing a slot is the assignment of None (lines 697-698, 749-750,
796-797). -/
def clearSlot (s : SState) (k : String) : SState := setSlot s k none

/-- The reset button (lines 661-664): the three successive assignments of
None. -/
def resetAll (s : SState) : SState :=
  setSlot (setSlot (setSlot s "departamento_seleccionado" none)
    "tipo_accidente_seleccionado" none) "tipo_vehiculo_seleccionado" none

/-!
Derived quantities used to state the claims, and the concrete tables at which
the theorems are instantiated.
-/

/-- The cells of one column, in row order. -/
def colCells (t : Table) (c : String) : List Cell :=
  t.rows.map (fun r => lookupCell r c)

/-- The input rows kept by the Total drop predicate on column c. -/
def retained (df : Table) (c : String) : List Row :=
  df.rows.filter (fun r => lookupCell r c != Cell.str "Total")

/-- The value-column cells of a set of rows, stacked per value column exactly
as melt stacks its output blocks. -/
def sourceCells (rows : List Row) (vcols : List String) : List Cell :=
  concatMap (fun v => rows.map (fun r => lookupCell r v)) vcols

/-- Numeric value of a cell, counting cells that fail coercion as 0, so that
sums over cell lists are sums over the successfully coerced cells. -/
def cellVal (c : Cell) : Int := (coerceInt c).getD 0

/-- Sum of the measure column of a normalized table. -/
def measureSum (t : Table) (c : String) : Int :=
  ((colCells t c).map cellVal).sum

/-- Number of cells of a list that fail integer coercion. -/
def failCount (cells : List Cell) : Nat :=
  (cells.filter (fun c => (coerceInt c).isNone)).length

/-- No row of the table carries the string Total in column c. -/
def noTotalIn (t : Table) (c : String) : Prop :=
  ∀ r ∈ t.rows, lookupCell r c ≠ Cell.str "Total"

/-- Every row of the second list reads, at column c, the cell of some row of
the first list: the pipeline steps only restrict, reshape or copy rows, so
column c values of the output all come from the input. -/
def keepsCol (ts us : List Row) (c : String) : Prop :=
  ∀ r₂ ∈ us, ∃ r₁ ∈ ts, lookupCell r₂ c = lookupCell r₁ c

/-- The produced table of a successful run (a placeholder on failure); used
to name the concrete outputs of the witness runs. -/
def okOr (x : Except PdError Table) : Table :=
  match x with
  | .ok t => t
  | .error _ => ⟨[], []⟩

/-- Boolean observation of a successful run, false on failure. -/
def onOk (x : Except PdError Table) (p : Table → Bool) : Bool :=
  match x with
  | .ok t => p t
  | .error _ => false

/-- limpiar_cuadro1 with the guarded fuente_cuadro drop omitted, used to state
that the absence of the optionally-dropped column leaves the output
unaffected. -/
def limpiar_cuadro1_nodrop (df : Table) : Except PdError Table := do
  let t1 ← filterNe df "departamento" "Total"
  let t3 ← melt t1 ["departamento"] yearCols "año" "accidentes"
  let t4 ← astypeInt t3 "año"
  let t5 ← dropnaCol t4 "accidentes"
  astypeInt t5 "accidentes"

/-- limpiar_cuadro47 with the three guarded column drops omitted. -/
def limpiar_cuadro47_nodrop (df : Table) : Except PdError Table := do
  let t1 ← filterNe df "departamento" "Total"
  let t3 ← melt t1 ["departamento"] yearCols "año" "fallecidos"
  let t4 ← astypeInt t3 "año"
  let t5 ← dropnaCol t4 "fallecidos"
  astypeInt t5 "fallecidos"

def df1W : Table :=
  ⟨["departamento", "2020", "2021", "2022", "2023", "2024"],
   [[("departamento", Cell.str "Guatemala"), ("2020", Cell.num 1),
     ("2021", Cell.num 2), ("2022", Cell.num 3), ("2023", Cell.num 4),
     ("2024", Cell.null)],
    [("departamento", Cell.str "Total"), ("2020", Cell.num 99),
     ("2021", Cell.num 99), ("2022", Cell.num 99), ("2023", Cell.num 99),
     ("2024", Cell.num 99)]]⟩

def out1W : Table := okOr (limpiar_cuadro1 df1W)

def df3W : Table :=
  ⟨["departamento", "total", "lunes", "martes", "miercoles", "jueves",
    "viernes", "sabado", "domingo"],
   [[("departamento", Cell.str "Escuintla"), ("total", Cell.num 28),
     ("lunes", Cell.num 1), ("martes", Cell.num 2), ("miercoles", Cell.num 3),
     ("jueves", Cell.num 4), ("viernes", Cell.num 5), ("sabado", Cell.num 6),
     ("domingo", Cell.num 7)]]⟩

def out3W : Table := okOr (limpiar_cuadro3 df3W)

/-- The one-row scenario table of the spec: department Guatemala, the 2020
cell the string 100, the 2021 cell the unparseable string abc, the remaining
year cells missing, as a CSV load of the scenario row produces. -/
def dfC2 : Table :=
  ⟨["departamento", "2020", "2021", "2022", "2023", "2024"],
   [[("departamento", Cell.str "Guatemala"), ("2020", Cell.str "100"),
     ("2021", Cell.str "abc"), ("2022", Cell.null), ("2023", Cell.null),
     ("2024", Cell.null)]]⟩

/-- Cuadro18-shaped table whose colision cell is missing. -/
def dfC3a : Table :=
  ⟨["tipo_de_vehiculo", "total", "colision", "atropello", "derrape", "choque",
    "vuelco", "embarranco", "encuneto", "caida", "ignorado"],
   [[("tipo_de_vehiculo", Cell.str "Motocicleta"), ("total", Cell.num 8),
     ("colision", Cell.null), ("atropello", Cell.num 1),
     ("derrape", Cell.num 1), ("choque", Cell.num 1), ("vuelco", Cell.num 1),
     ("embarranco", Cell.num 1), ("encuneto", Cell.num 1),
     ("caida", Cell.num 1), ("ignorado", Cell.num 1)]]⟩

/-- Cuadro1-shaped table with a negative accident count. -/
def dfC3b : Table :=
  ⟨["departamento", "2020", "2021", "2022", "2023", "2024"],
   [[("departamento", Cell.str "Jutiapa"), ("2020", Cell.num (-3)),
     ("2021", Cell.num 0), ("2022", Cell.num 0), ("2023", Cell.num 0),
     ("2024", Cell.num 0)]]⟩

def outC3a : Table := okOr (limpiar_cuadro18 dfC3a)

def outC3b : Table := okOr (limpiar_cuadro1 dfC3b)

def df4yr : Table :=
  ⟨["departamento", "fuente_cuadro", "2020", "2021", "2022", "2023", "2024"],
   [[("departamento", Cell.str "Guatemala"), ("fuente_cuadro", Cell.str "x"),
     ("2020", Cell.num 5), ("2021", Cell.num 6), ("2022", Cell.num 7),
     ("2023", Cell.num 8), ("2024", Cell.num 9)],
    [("departamento", Cell.str "Total"), ("fuente_cuadro", Cell.str "x"),
     ("2020", Cell.num 35), ("2021", Cell.num 6), ("2022", Cell.num 7),
     ("2023", Cell.num 8), ("2024", Cell.num 9)]]⟩

def df4dia : Table :=
  ⟨["departamento", "total", "lunes", "martes", "miercoles", "jueves",
    "viernes", "sabado", "domingo"],
   [[("departamento", Cell.str "Peten"), ("total", Cell.num 7),
     ("lunes", Cell.num 1), ("martes", Cell.num 1), ("miercoles", Cell.num 1),
     ("jueves", Cell.num 1), ("viernes", Cell.num 1), ("sabado", Cell.num 1),
     ("domingo", Cell.num 1)],
    [("departamento", Cell.str "Total"), ("total", Cell.num 7),
     ("lunes", Cell.num 1), ("martes", Cell.num 1), ("miercoles", Cell.num 1),
     ("jueves", Cell.num 1), ("viernes", Cell.num 1), ("sabado", Cell.num 1),
     ("domingo", Cell.num 1)]]⟩

def df4hora : Table :=
  ⟨["hora_de_ocurrencia", "total", "lunes", "martes", "miercoles", "jueves",
    "viernes", "sabado", "domingo"],
   [[("hora_de_ocurrencia", Cell.str "05:00 a 05:59"), ("total", Cell.num 7),
     ("lunes", Cell.num 1), ("martes", Cell.num 1), ("miercoles", Cell.num 1),
     ("jueves", Cell.num 1), ("viernes", Cell.num 1), ("sabado", Cell.num 1),
     ("domingo", Cell.num 1)],
    [("hora_de_ocurrencia", Cell.str "Total"), ("total", Cell.num 7),
     ("lunes", Cell.num 1), ("martes", Cell.num 1), ("miercoles", Cell.num 1),
     ("jueves", Cell.num 1), ("viernes", Cell.num 1), ("sabado", Cell.num 1),
     ("domingo", Cell.num 1)]]⟩

def df4mes : Table :=
  ⟨["mes_de_ocurrencia", "total", "colision", "atropello", "derrape",
    "choque", "vuelco", "embarranco", "encuneto", "caida", "ignorado"],
   [[("mes_de_ocurrencia", Cell.str "Enero"), ("total", Cell.num 9),
     ("colision", Cell.num 1), ("atropello", Cell.num 1),
     ("derrape", Cell.num 1), ("choque", Cell.num 1), ("vuelco", Cell.num 1),
     ("embarranco", Cell.num 1), ("encuneto", Cell.num 1),
     ("caida", Cell.num 1), ("ignorado", Cell.num 1)],
    [("mes_de_ocurrencia", Cell.str "Total"), ("total", Cell.num 9),
     ("colision", Cell.num 1), ("atropello", Cell.num 1),
     ("derrape", Cell.num 1), ("choque", Cell.num 1), ("vuelco", Cell.num 1),
     ("embarranco", Cell.num 1), ("encuneto", Cell.num 1),
     ("caida", Cell.num 1), ("ignorado", Cell.num 1)]]⟩

def df4veh : Table :=
  ⟨["tipo_de_vehiculo", "total", "colision", "atropello", "derrape", "choque",
    "vuelco", "embarranco", "encuneto", "caida", "ignorado"],
   [[("tipo_de_vehiculo", Cell.str "Bus"), ("total", Cell.num 9),
     ("colision", Cell.num 1), ("atropello", Cell.num 1),
     ("derrape", Cell.num 1), ("choque", Cell.num 1), ("vuelco", Cell.num 1),
     ("embarranco", Cell.num 1), ("encuneto", Cell.num 1),
     ("caida", Cell.num 1), ("ignorado", Cell.num 1)],
    [("tipo_de_vehiculo", Cell.str "Total"), ("total", Cell.num 9),
     ("colision", Cell.num 1), ("atropello", Cell.num 1),
     ("derrape", Cell.num 1), ("choque", Cell.num 1), ("vuelco", Cell.num 1),
     ("embarranco", Cell.num 1), ("encuneto", Cell.num 1),
     ("caida", Cell.num 1), ("ignorado", Cell.num 1)]]⟩

def df4edad : Table :=
  ⟨["grupos_de_edad", "total"],
   [[("grupos_de_edad", Cell.str "15 a 19"), ("total", Cell.num 12)],
    [("grupos_de_edad", Cell.str "Total"), ("total", Cell.num 12)]]⟩

def out4a : Table := okOr (limpiar_cuadro1 df4yr)
def out4b : Table := okOr (limpiar_cuadro3 df4dia)
def out4c : Table := okOr (limpiar_cuadro7 df4hora)
def out4d : Table := okOr (limpiar_cuadro9 df4mes)
def out4e : Table := okOr (limpiar_cuadro18 df4veh)
def out4f : Table := okOr (limpiar_cuadro31 df4yr)
def out4g : Table := okOr (limpiar_cuadro38 df4edad)
def out4h : Table := okOr (limpiar_cuadro47 df4yr)
def out4i : Table := okOr (limpiar_cuadro54 df4edad)

/-- Heatmap input in which only lunes ever occurs. -/
def dfC5 : Table :=
  ⟨["hora_de_ocurrencia", "dia_semana", "accidentes"],
   [[("hora_de_ocurrencia", Cell.str "00:00 a 00:59"),
     ("dia_semana", Cell.str "lunes"), ("accidentes", Cell.num 5)]]⟩

/-- Heatmap input covering the seven weekdays at one hour, with a second hour
present only on lunes. -/
def df5W : Table :=
  ⟨["hora_de_ocurrencia", "dia_semana", "accidentes", "hora_num"],
   [[("hora_de_ocurrencia", Cell.str "05:00 a 05:59"),
     ("dia_semana", Cell.str "lunes"), ("accidentes", Cell.num 1),
     ("hora_num", Cell.num 5)],
    [("hora_de_ocurrencia", Cell.str "05:00 a 05:59"),
     ("dia_semana", Cell.str "martes"), ("accidentes", Cell.num 2),
     ("hora_num", Cell.num 5)],
    [("hora_de_ocurrencia", Cell.str "05:00 a 05:59"),
     ("dia_semana", Cell.str "miercoles"), ("accidentes", Cell.num 3),
     ("hora_num", Cell.num 5)],
    [("hora_de_ocurrencia", Cell.str "05:00 a 05:59"),
     ("dia_semana", Cell.str "jueves"), ("accidentes", Cell.num 4),
     ("hora_num", Cell.num 5)],
    [("hora_de_ocurrencia", Cell.str "05:00 a 05:59"),
     ("dia_semana", Cell.str "viernes"), ("accidentes", Cell.num 5),
     ("hora_num", Cell.num 5)],
    [("hora_de_ocurrencia", Cell.str "05:00 a 05:59"),
     ("dia_semana", Cell.str "sabado"), ("accidentes", Cell.num 6),
     ("hora_num", Cell.num 5)],
    [("hora_de_ocurrencia", Cell.str "05:00 a 05:59"),
     ("dia_semana", Cell.str "domingo"), ("accidentes", Cell.num 7),
     ("hora_num", Cell.num 5)],
    [("hora_de_ocurrencia", Cell.str "03:00 a 03:59"),
     ("dia_semana", Cell.str "lunes"), ("accidentes", Cell.num 9),
     ("hora_num", Cell.num 3)]]⟩

/-- Year table whose 2022 column is absent. -/
def dfC6a : Table :=
  ⟨["departamento", "2020", "2021", "2023", "2024"],
   [[("departamento", Cell.str "Guatemala"), ("2020", Cell.num 1),
     ("2021", Cell.num 2), ("2023", Cell.num 4), ("2024", Cell.num 5)]]⟩

/-- Year table without any of the optionally-dropped columns. -/
def dfC6b : Table :=
  ⟨["departamento", "2020", "2021", "2022", "2023", "2024"],
   [[("departamento", Cell.str "Izabal"), ("2020", Cell.num 1),
     ("2021", Cell.num 2), ("2022", Cell.num 3), ("2023", Cell.num 4),
     ("2024", Cell.num 5)]]⟩

/-- Cuadro7-shaped table whose hour label has no digits before a colon, so
the derived hora_num extraction fails on its melted records. -/
def dfC9 : Table :=
  ⟨["hora_de_ocurrencia", "total", "lunes", "martes", "miercoles", "jueves",
    "viernes", "sabado", "domingo"],
   [[("hora_de_ocurrencia", Cell.str "Madrugada"), ("total", Cell.num 7),
     ("lunes", Cell.num 1), ("martes", Cell.num 1), ("miercoles", Cell.num 1),
     ("jueves", Cell.num 1), ("viernes", Cell.num 1), ("sabado", Cell.num 1),
     ("domingo", Cell.num 1)]]⟩

def preC9 : Table := okOr (cuadro7_pre dfC9)

/-- Cuadro9-shaped table with a month name outside the lookup table. -/
def df9W : Table :=
  ⟨["mes_de_ocurrencia", "total", "colision", "atropello", "derrape",
    "choque", "vuelco", "embarranco", "encuneto", "caida", "ignorado"],
   [[("mes_de_ocurrencia", Cell.str "Eneroo"), ("total", Cell.num 9),
     ("colision", Cell.num 1), ("atropello", Cell.num 1),
     ("derrape", Cell.num 1), ("choque", Cell.num 1), ("vuelco", Cell.num 1),
     ("embarranco", Cell.num 1), ("encuneto", Cell.num 1),
     ("caida", Cell.num 1), ("ignorado", Cell.num 1)]]⟩

def out9W : Table := okOr (limpiar_cuadro9 df9W)

/-- Age-group table with a Total row and a fuente_cuadro column. -/
def df10W : Table :=
  ⟨["grupos_de_edad", "total", "fuente_cuadro"],
   [[("grupos_de_edad", Cell.str "20 a 24"), ("total", Cell.num 3),
     ("fuente_cuadro", Cell.str "INE")],
    [("grupos_de_edad", Cell.str "Total"), ("total", Cell.num 3),
     ("fuente_cuadro", Cell.str "INE")]]⟩

def out10W : Table := okOr (limpiar_cuadro38 df10W)

/-- Cuadro31-shaped table with a missing lesionados cell and a Total row. -/
def dfC3c : Table :=
  ⟨["departamento", "2020", "2021", "2022", "2023", "2024"],
   [[("departamento", Cell.str "Sacatepequez"), ("2020", Cell.num 4),
     ("2021", Cell.null), ("2022", Cell.num 5), ("2023", Cell.num 6),
     ("2024", Cell.num 7)],
    [("departamento", Cell.str "Total"), ("2020", Cell.num 4),
     ("2021", Cell.num 9), ("2022", Cell.num 5), ("2023", Cell.num 6),
     ("2024", Cell.num 7)]]⟩

def outC3c : Table := okOr (limpiar_cuadro31 dfC3c)

/-- Cuadro47-shaped table with a missing fallecidos cell and a Total row. -/
def dfC3d : Table :=
  ⟨["departamento", "2020", "2021", "2022", "2023", "2024"],
   [[("departamento", Cell.str "Solola"), ("2020", Cell.num 2),
     ("2021", Cell.num 3), ("2022", Cell.null), ("2023", Cell.num 4),
     ("2024", Cell.num 5)],
    [("departamento", Cell.str "Total"), ("2020", Cell.num 2),
     ("2021", Cell.num 3), ("2022", Cell.num 8), ("2023", Cell.num 4),
     ("2024", Cell.num 5)]]⟩

def outC3d : Table := okOr (limpiar_cuadro47 dfC3d)

/-- Cuadro3-shaped table with a missing miercoles cell and a Total row. -/
def dfC3e : Table :=
  ⟨["departamento", "total", "lunes", "martes", "miercoles", "jueves",
    "viernes", "sabado", "domingo"],
   [[("departamento", Cell.str "Zacapa"), ("total", Cell.num 25),
     ("lunes", Cell.num 1), ("martes", Cell.num 2), ("miercoles", Cell.null),
     ("jueves", Cell.num 4), ("viernes", Cell.num 5), ("sabado", Cell.num 6),
     ("domingo", Cell.num 7)],
    [("departamento", Cell.str "Total"), ("total", Cell.num 25),
     ("lunes", Cell.num 1), ("martes", Cell.num 2), ("miercoles", Cell.num 3),
     ("jueves", Cell.num 4), ("viernes", Cell.num 5), ("sabado", Cell.num 6),
     ("domingo", Cell.num 7)]]⟩

def outC3e : Table := okOr (limpiar_cuadro3 dfC3e)

/-- Cuadro7-shaped table with a missing martes cell and a Total row. -/
def dfC3f : Table :=
  ⟨["hora_de_ocurrencia", "total", "lunes", "martes", "miercoles", "jueves",
    "viernes", "sabado", "domingo"],
   [[("hora_de_ocurrencia", Cell.str "05:00 a 05:59"), ("total", Cell.num 25),
     ("lunes", Cell.num 1), ("martes", Cell.null), ("miercoles", Cell.num 3),
     ("jueves", Cell.num 4), ("viernes", Cell.num 5), ("sabado", Cell.num 6),
     ("domingo", Cell.num 7)],
    [("hora_de_ocurrencia", Cell.str "Total"), ("total", Cell.num 25),
     ("lunes", Cell.num 1), ("martes", Cell.num 2), ("miercoles", Cell.num 3),
     ("jueves", Cell.num 4), ("viernes", Cell.num 5), ("sabado", Cell.num 6),
     ("domingo", Cell.num 7)]]⟩

def outC3f : Table := okOr (limpiar_cuadro7 dfC3f)

/-- Cuadro9-shaped table with a missing colision cell and a Total row. -/
def dfC3g : Table :=
  ⟨["mes_de_ocurrencia", "total", "colision", "atropello", "derrape",
    "choque", "vuelco", "embarranco", "encuneto", "caida", "ignorado"],
   [[("mes_de_ocurrencia", Cell.str "Febrero"), ("total", Cell.num 8),
     ("colision", Cell.null), ("atropello", Cell.num 1),
     ("derrape", Cell.num 1), ("choque", Cell.num 1), ("vuelco", Cell.num 1),
     ("embarranco", Cell.num 1), ("encuneto", Cell.num 1),
     ("caida", Cell.num 1), ("ignorado", Cell.num 1)],
    [("mes_de_ocurrencia", Cell.str "Total"), ("total", Cell.num 8),
     ("colision", Cell.num 1), ("atropello", Cell.num 1),
     ("derrape", Cell.num 1), ("choque", Cell.num 1), ("vuelco", Cell.num 1),
     ("embarranco", Cell.num 1), ("encuneto", Cell.num 1),
     ("caida", Cell.num 1), ("ignorado", Cell.num 1)]]⟩

def outC3g : Table := okOr (limpiar_cuadro9 dfC3g)

/-!
Lemmas about association-list lookups under the row operations.
-/

theorem lookup_cons_self {β : Type} (k : String) (v : β)
    (l : List (String × β)) : List.lookup k ((k, v) :: l) = some v := by
  simp [List.lookup]

theorem lookup_cons_ne {β : Type} (c k : String) (v : β)
    (l : List (String × β)) (h : c ≠ k) :
    List.lookup c ((k, v) :: l) = List.lookup c l := by
  have hck : (c == k) = false := beq_eq_false_iff_ne.mpr h
  simp [List.lookup, hck]

theorem lookup_updKey_ne {β : Type} (c d : String) (x : β) (h : c ≠ d)
    (r : List (String × β)) : (updKey r d x).lookup c = r.lookup c := by
  induction r with
  | nil => rfl
  | cons p r ih =>
      obtain ⟨k, v⟩ := p
      have hstep : updKey ((k, v) :: r) d x =
          (if k = d then (k, x) else (k, v)) :: updKey r d x := rfl
      rw [hstep]
      by_cases hk : k = d
      · subst hk
        rw [if_pos rfl, lookup_cons_ne c k x _ h, lookup_cons_ne c k v r h, ih]
      · rw [if_neg hk]
        by_cases hck : c = k
        · subst hck
          rw [lookup_cons_self, lookup_cons_self]
        · rw [lookup_cons_ne c k v _ hck, lookup_cons_ne c k v r hck, ih]

theorem lookup_updKey_self {β : Type} (c : String) (x : β)
    (r : List (String × β)) :
    (updKey r c x).lookup c = (r.lookup c).map (fun _ => x) := by
  induction r with
  | nil => rfl
  | cons p r ih =>
      obtain ⟨k, v⟩ := p
      have hstep : updKey ((k, v) :: r) c x =
          (if k = c then (k, x) else (k, v)) :: updKey r c x := rfl
      rw [hstep]
      by_cases hk : k = c
      · subst hk
        rw [if_pos rfl, lookup_cons_self, lookup_cons_self]
        rfl
      · rw [if_neg hk, lookup_cons_ne c k v _ (Ne.symm hk),
          lookup_cons_ne c k v r (Ne.symm hk), ih]

theorem lookup_dropKey_ne (c d : String) (h : c ≠ d) (r : Row) :
    (dropKey r d).lookup c = r.lookup c := by
  induction r with
  | nil => rfl
  | cons p r ih =>
      obtain ⟨k, v⟩ := p
      by_cases hk : k = d
      · subst hk
        have hstep : dropKey ((k, v) :: r) k = dropKey r k := by
          simp [dropKey, List.filter_cons]
        rw [hstep, ih, lookup_cons_ne c k v r h]
      · have hkd : (k != d) = true := bne_iff_ne.mpr hk
        have hstep : dropKey ((k, v) :: r) d = (k, v) :: dropKey r d := by
          simp [dropKey, List.filter_cons, hkd]
        rw [hstep]
        by_cases hck : c = k
        · subst hck
          rw [lookup_cons_self, lookup_cons_self]
        · rw [lookup_cons_ne c k v _ hck, lookup_cons_ne c k v r hck, ih]

theorem lookup_append_some {β : Type} (c : String) (v : β)
    (r₁ r₂ : List (String × β)) (h : r₁.lookup c = some v) :
    (r₁ ++ r₂).lookup c = some v := by
  induction r₁ with
  | nil => simp [List.lookup] at h
  | cons p r ih =>
      obtain ⟨k, w⟩ := p
      by_cases hck : c = k
      · subst hck
        rw [lookup_cons_self] at h
        rw [List.cons_append, lookup_cons_self]
        exact h
      · rw [lookup_cons_ne c k w r hck] at h
        rw [List.cons_append, lookup_cons_ne c k w _ hck]
        exact ih h

theorem lookup_append_none {β : Type} (c : String)
    (r₁ r₂ : List (String × β)) (h : r₁.lookup c = none) :
    (r₁ ++ r₂).lookup c = r₂.lookup c := by
  induction r₁ with
  | nil => rfl
  | cons p r ih =>
      obtain ⟨k, w⟩ := p
      by_cases hck : c = k
      · subst hck
        rw [lookup_cons_self] at h
        cases h
      · rw [lookup_cons_ne c k w r hck] at h
        rw [List.cons_append, lookup_cons_ne c k w _ hck]
        exact ih h

theorem lookup_map_pair_self {β : Type} (c : String) (f : String → β)
    (l : List String) (h : c ∈ l) :
    (l.map (fun i => (i, f i))).lookup c = some (f c) := by
  induction l with
  | nil => cases h
  | cons a l ih =>
      by_cases hca : c = a
      · subst hca
        rw [List.map_cons, lookup_cons_self]
      · have hcl : c ∈ l := by
          cases h with
          | head => exact absurd rfl hca
          | tail _ h2 => exact h2
        rw [List.map_cons, lookup_cons_ne c a (f a) _ hca, ih hcl]

theorem lookup_map_pair_none {β : Type} (c : String) (f : String → β)
    (l : List String) (h : c ∉ l) :
    (l.map (fun i => (i, f i))).lookup c = none := by
  induction l with
  | nil => rfl
  | cons a l ih =>
      have hca : c ≠ a := fun hc => h (hc ▸ List.mem_cons_self a l)
      have hcl : c ∉ l := fun hc => h (List.mem_cons_of_mem a hc)
      rw [List.map_cons, lookup_cons_ne c a (f a) _ hca, ih hcl]

theorem meltRow_lookup_measure (idVars : List String) (vn mn v : String)
    (r : Row) (h1 : mn ∉ idVars) (h2 : mn ≠ vn) :
    (meltRow idVars vn mn v r).lookup mn = some (lookupCell r v) := by
  unfold meltRow
  rw [lookup_append_none mn _ _ (lookup_map_pair_none mn _ idVars h1),
    lookup_cons_ne mn vn (Cell.str v) _ h2, lookup_cons_self]

theorem meltRow_lookup_id (idVars : List String) (vn mn v : String) (r : Row)
    (c : String) (hc : c ∈ idVars) :
    (meltRow idVars vn mn v r).lookup c = some (lookupCell r c) := by
  unfold meltRow
  exact lookup_append_some c _ _ _ (lookup_map_pair_self c _ idVars hc)

theorem meltRow_lookup_none (idVars : List String) (vn mn v : String)
    (r : Row) (c : String) (h1 : c ∉ idVars) (h2 : c ≠ vn) (h3 : c ≠ mn) :
    (meltRow idVars vn mn v r).lookup c = none := by
  unfold meltRow
  rw [lookup_append_none c _ _ (lookup_map_pair_none c _ idVars h1),
    lookup_cons_ne c vn (Cell.str v) _ h2, lookup_cons_ne c mn _ _ h3]
  rfl

theorem lookupCell_dropKey_ne (c d : String) (h : c ≠ d) (r : Row) :
    lookupCell (dropKey r d) c = lookupCell r c := by
  unfold lookupCell
  rw [lookup_dropKey_ne c d h r]

theorem lookupCell_updKey_ne (c d : String) (x : Cell) (h : c ≠ d) (r : Row) :
    lookupCell (updKey r d x) c = lookupCell r c := by
  unfold lookupCell
  rw [lookup_updKey_ne c d x h r]

theorem lookupCell_meltRow_measure (idVars : List String) (vn mn v : String)
    (r : Row) (h1 : mn ∉ idVars) (h2 : mn ≠ vn) :
    lookupCell (meltRow idVars vn mn v r) mn = lookupCell r v := by
  unfold lookupCell
  rw [meltRow_lookup_measure idVars vn mn v r h1 h2]
  rfl

theorem lookupCell_meltRow_id (idVars : List String) (vn mn v : String)
    (r : Row) (c : String) (hc : c ∈ idVars) :
    lookupCell (meltRow idVars vn mn v r) c = lookupCell r c := by
  unfold lookupCell
  rw [meltRow_lookup_id idVars vn mn v r c hc]
  rfl

theorem lookupCell_append_single_ne (c d : String) (x : Cell) (r : Row)
    (h : c ≠ d) : lookupCell (r ++ [(d, x)]) c = lookupCell r c := by
  unfold lookupCell
  cases hr : r.lookup c with
  | none =>
      rw [lookup_append_none c r _ hr, lookup_cons_ne c d x [] h]
      rfl
  | some v => rw [lookup_append_some c v r _ hr]

theorem lookup_append_single_self (d : String) (x : Cell) (r : Row)
    (h : r.lookup d = none) : (r ++ [(d, x)]).lookup d = some x := by
  rw [lookup_append_none d r _ h, lookup_cons_self]

/-!
Small congruence and arithmetic helpers over lists.
-/

theorem map_eq_map {α β : Type} (f g : α → β) (l : List α)
    (h : ∀ a ∈ l, f a = g a) : l.map f = l.map g := by
  induction l with
  | nil => rfl
  | cons a l ih =>
      rw [List.map_cons, List.map_cons, h a (List.mem_cons_self a l),
        ih (fun a ha => h a (List.mem_cons_of_mem _ ha))]

theorem concatMap_map {α β γ : Type} (f : α → List β) (g : β → γ)
    (l : List α) :
    (concatMap f l).map g = concatMap (fun a => (f a).map g) l := by
  induction l with
  | nil => rfl
  | cons a l ih => simp [concatMap, ih]

theorem mem_concatMap {α β : Type} (f : α → List β) (l : List α) (b : β) :
    b ∈ concatMap f l ↔ ∃ a ∈ l, b ∈ f a := by
  induction l with
  | nil => simp [concatMap]
  | cons a l ih => simp [concatMap, ih]

theorem sum_concatMap {α : Type} (f : α → List Int) (l : List α) :
    (concatMap f l).sum = (l.map (fun a => (f a).sum)).sum := by
  induction l with
  | nil => rfl
  | cons a l ih => simp [concatMap, ih]

theorem length_concatMap {α β : Type} (f : α → List β) (l : List α) :
    (concatMap f l).length = (l.map (fun a => (f a).length)).sum := by
  induction l with
  | nil => rfl
  | cons a l ih => simp [concatMap, ih]

theorem concatMap_congr {α β : Type} (f g : α → List β) (l : List α)
    (h : ∀ a ∈ l, f a = g a) : concatMap f l = concatMap g l := by
  induction l with
  | nil => rfl
  | cons a l ih =>
      simp only [concatMap]
      rw [h a (List.mem_cons_self a l),
        ih (fun a ha => h a (List.mem_cons_of_mem _ ha))]

theorem sum_map_filter_of_zero {α : Type} (p : α → Bool) (f : α → Int)
    (l : List α) (h : ∀ x ∈ l, p x = false → f x = 0) :
    ((l.filter p).map f).sum = (l.map f).sum := by
  induction l with
  | nil => rfl
  | cons a l ih =>
      have htail : ∀ x ∈ l, p x = false → f x = 0 :=
        fun x hx => h x (List.mem_cons_of_mem a hx)
      by_cases hp : p a = true
      · simp [List.filter_cons, hp, ih htail]
      · have hp2 : p a = false := Bool.eq_false_iff.mpr hp
        have hz := h a (List.mem_cons_self a l) hp2
        simp [List.filter_cons, hp2, ih htail, hz]

theorem length_filter_coerce (l : List Cell)
    (h : ∀ c ∈ l, c ≠ Cell.null → (coerceInt c).isSome) :
    (l.filter (fun c => c != Cell.null)).length +
      (l.filter (fun c => (coerceInt c).isNone)).length = l.length := by
  induction l with
  | nil => rfl
  | cons a l ih =>
      have htail : ∀ c ∈ l, c ≠ Cell.null → (coerceInt c).isSome :=
        fun c hc => h c (List.mem_cons_of_mem a hc)
      by_cases ha : a = Cell.null
      · subst ha
        have h1 : ((Cell.null != Cell.null) : Bool) = false := by decide
        have h2 : (coerceInt Cell.null).isNone = true := by decide
        have h3 := ih htail
        simp [List.filter_cons, h1, h2]
        omega
      · have h1 : (a != Cell.null) = true := bne_iff_ne.mpr ha
        have h2 : (coerceInt a).isNone = false := by
          have hs := h a (List.mem_cons_self a l) ha
          cases hc : coerceInt a with
          | none => rw [hc] at hs; cases hs
          | some n => rfl
        have h3 := ih htail
        simp [List.filter_cons, h1, h2]
        omega

/-!
Inversion lemmas for the pipeline operations.
-/

theorem bind_eq_ok {α β : Type} (x : Except PdError α)
    (f : α → Except PdError β) (b : β) :
    (x >>= f) = .ok b ↔ ∃ a, x = .ok a ∧ f a = .ok b := by
  cases x with
  | error e =>
      constructor
      · intro h
        cases h
      · rintro ⟨a, ha, _⟩
        cases ha
  | ok a =>
      constructor
      · intro h
        exact ⟨a, rfl, h⟩
      · rintro ⟨a2, ha, hf⟩
        cases ha
        exact hf

theorem bind_error {α β : Type} (x : Except PdError α)
    (f : α → Except PdError β) (a : α) (e : PdError) (hx : x = .ok a)
    (hf : f a = .error e) : (x >>= f) = .error e := by
  subst hx
  exact hf

theorem bind_error_left {α β : Type} (x : Except PdError α)
    (f : α → Except PdError β) (e : PdError) (hx : x = .error e) :
    (x >>= f) = .error e := by
  subst hx
  rfl

theorem filterNe_ok (t u : Table) (c s : String) (h : filterNe t c s = .ok u) :
    c ∈ t.cols ∧ u.cols = t.cols ∧
      u.rows = t.rows.filter (fun r => lookupCell r c != Cell.str s) := by
  by_cases hc : c ∈ t.cols
  · rw [filterNe, if_pos hc] at h
    cases h
    exact ⟨hc, rfl, rfl⟩
  · rw [filterNe, if_neg hc] at h
    cases h

theorem filterNe_error (t : Table) (c s : String) (h : c ∉ t.cols) :
    filterNe t c s = .error (.keyError c) := by
  rw [filterNe, if_neg h]

theorem dropCol_ok (t u : Table) (c : String) (h : dropCol t c = .ok u) :
    c ∈ t.cols ∧ u.cols = t.cols.filter (fun d => d != c) ∧
      u.rows = t.rows.map (fun r => dropKey r c) := by
  by_cases hc : c ∈ t.cols
  · rw [dropCol, if_pos hc] at h
    cases h
    exact ⟨hc, rfl, rfl⟩
  · rw [dropCol, if_neg hc] at h
    cases h

theorem dropnaCol_ok (t u : Table) (c : String) (h : dropnaCol t c = .ok u) :
    c ∈ t.cols ∧ u.cols = t.cols ∧
      u.rows = t.rows.filter (fun r => lookupCell r c != Cell.null) := by
  by_cases hc : c ∈ t.cols
  · rw [dropnaCol, if_pos hc] at h
    cases h
    exact ⟨hc, rfl, rfl⟩
  · rw [dropnaCol, if_neg hc] at h
    cases h

theorem astypeInt_ok (t u : Table) (c : String) (h : astypeInt t c = .ok u) :
    c ∈ t.cols ∧ (∀ r ∈ t.rows, (coerceInt (lookupCell r c)).isSome) ∧
      u.cols = t.cols ∧
      u.rows = t.rows.map (fun r =>
        updKey r c (Cell.num ((coerceInt (lookupCell r c)).getD 0))) := by
  by_cases hc : c ∈ t.cols
  · rw [astypeInt, if_pos hc] at h
    by_cases hall : t.rows.all (fun r => (coerceInt (lookupCell r c)).isSome)
    · rw [if_pos hall] at h
      cases h
      exact ⟨hc, List.all_eq_true.mp hall, rfl, rfl⟩
    · rw [if_neg hall] at h
      cases h
  · rw [astypeInt, if_neg hc] at h
    cases h

theorem melt_ok (t u : Table) (idVars valueVars : List String)
    (vn mn : String) (h : melt t idVars valueVars vn mn = .ok u) :
    (∀ c ∈ idVars ++ valueVars, c ∈ t.cols) ∧
      u.cols = idVars ++ [vn, mn] ∧
      u.rows = concatMap (fun v => t.rows.map (meltRow idVars vn mn v))
        valueVars := by
  unfold melt at h
  split at h
  · cases h
  · cases h
    rename_i hf
    refine ⟨?_, rfl, rfl⟩
    intro c hc
    have hnp := List.find?_eq_none.mp hf c hc
    simp at hnp
    exact hnp

theorem dropColIfPresent_absent (t : Table) (c : String) (h : c ∉ t.cols) :
    dropColIfPresent t c = t := by
  rw [dropColIfPresent, if_neg h]

theorem dropColIfPresent_colCells (t : Table) (d c : String) (h : c ≠ d) :
    colCells (dropColIfPresent t d) c = colCells t c := by
  unfold dropColIfPresent colCells
  by_cases hp : d ∈ t.cols
  · rw [if_pos hp]
    simp only [List.map_map]
    exact map_eq_map _ _ _
      (fun r _ => lookupCell_dropKey_ne c d h r)
  · rw [if_neg hp]

theorem mem_dropColIfPresent_cols (t : Table) (d c : String) (h : c ≠ d) :
    c ∈ (dropColIfPresent t d).cols ↔ c ∈ t.cols := by
  unfold dropColIfPresent
  by_cases hp : d ∈ t.cols
  · rw [if_pos hp]
    simp [List.mem_filter, bne_iff_ne, h]
  · rw [if_neg hp]

theorem not_mem_dropColIfPresent_cols (t : Table) (d c : String)
    (h : c ∉ t.cols) : c ∉ (dropColIfPresent t d).cols := by
  unfold dropColIfPresent
  by_cases hp : d ∈ t.cols
  · rw [if_pos hp]
    intro hmem
    exact h (List.mem_filter.mp hmem).1
  · rw [if_neg hp]
    exact h

/-!
Transport of the column values along the pipeline, used to show that the drop
predicate on Total persists to the normalized output.
-/

theorem keepsCol_trans (ts us vs : List Row) (c : String)
    (h1 : keepsCol ts us c) (h2 : keepsCol us vs c) : keepsCol ts vs c := by
  intro r2 hr2
  obtain ⟨r1, hr1, he1⟩ := h2 r2 hr2
  obtain ⟨r0, hr0, he0⟩ := h1 r1 hr1
  exact ⟨r0, hr0, he1.trans he0⟩

theorem keepsCol_filter (ts : List Row) (p : Row → Bool) (c : String) :
    keepsCol ts (ts.filter p) c := by
  intro r hr
  exact ⟨r, List.mem_of_mem_filter hr, rfl⟩

theorem keepsCol_map (ts : List Row) (f : Row → Row) (c : String)
    (h : ∀ r, lookupCell (f r) c = lookupCell r c) :
    keepsCol ts (ts.map f) c := by
  intro r2 hr2
  obtain ⟨r1, hr1, rfl⟩ := List.mem_map.mp hr2
  exact ⟨r1, hr1, h r1⟩

theorem keepsCol_melt (ts : List Row) (idVars valueVars : List String)
    (vn mn c : String) (hc : c ∈ idVars) :
    keepsCol ts
      (concatMap (fun v => ts.map (meltRow idVars vn mn v)) valueVars) c := by
  intro r2 hr2
  obtain ⟨v, _, hr2m⟩ := (mem_concatMap _ _ _).mp hr2
  obtain ⟨r1, hr1, rfl⟩ := List.mem_map.mp hr2m
  exact ⟨r1, hr1, lookupCell_meltRow_id idVars vn mn v r1 c hc⟩

theorem keepsCol_dropColIfPresent (t : Table) (d c : String) (h : c ≠ d) :
    keepsCol t.rows (dropColIfPresent t d).rows c := by
  unfold dropColIfPresent
  by_cases hp : d ∈ t.cols
  · rw [if_pos hp]
    exact keepsCol_map t.rows _ c (fun r => lookupCell_dropKey_ne c d h r)
  · rw [if_neg hp]
    intro r hr
    exact ⟨r, hr, rfl⟩

theorem keepsCol_pred (ts us : List Row) (c : String) (P : Cell → Prop)
    (h : keepsCol ts us c) (hp : ∀ r ∈ ts, P (lookupCell r c)) :
    ∀ r ∈ us, P (lookupCell r c) := by
  intro r2 hr2
  obtain ⟨r1, hr1, he⟩ := h r2 hr2
  rw [he]
  exact hp r1 hr1

theorem filterNe_rows_ne (t u : Table) (c s : String)
    (h : filterNe t c s = .ok u) :
    ∀ r ∈ u.rows, lookupCell r c ≠ Cell.str s := by
  obtain ⟨-, -, hrows⟩ := filterNe_ok t u c s h
  intro r hr
  rw [hrows] at hr
  have := List.of_mem_filter hr
  exact bne_iff_ne.mp this

/-!
Session-state lemmas.
-/

theorem lookup_single_ne {β : Type} (c d : String) (x : β) (h : c ≠ d) :
    List.lookup c [(d, x)] = (none : Option β) := by
  rw [lookup_cons_ne c d x [] h]
  rfl

theorem getSlot_setSlot_self (s : SState) (k : String) (v : Option String) :
    getSlot (setSlot s k v) k = v := by
  unfold setSlot getSlot
  by_cases hs : (s.lookup k).isSome
  · rw [if_pos hs, lookup_updKey_self]
    cases hl : s.lookup k with
    | none => rw [hl] at hs; cases hs
    | some w => rfl
  · rw [if_neg hs]
    have hn : s.lookup k = none := Option.not_isSome_iff_eq_none.mp hs
    rw [lookup_append_none k s _ hn, lookup_cons_self]
    rfl

theorem getSlot_setSlot_ne (s : SState) (k k2 : String) (v : Option String)
    (h : k2 ≠ k) : getSlot (setSlot s k v) k2 = getSlot s k2 := by
  unfold setSlot getSlot
  by_cases hs : (s.lookup k).isSome
  · rw [if_pos hs, lookup_updKey_ne k2 k v h s]
  · rw [if_neg hs]
    cases hl : s.lookup k2 with
    | none => rw [lookup_append_none k2 s _ hl, lookup_single_ne k2 k v h]
    | some w => rw [lookup_append_some k2 w s _ hl]

theorem setSlot_empty_noop (s : SState) (k : String)
    (h1 : (s.lookup k).isSome) (h2 : ∀ p ∈ s, p.1 = k → p.2 = none) :
    setSlot s k none = s := by
  unfold setSlot
  rw [if_pos h1]
  unfold updKey
  have hid : ∀ p ∈ s, (if p.1 = k then (p.1, (none : Option String)) else p)
      = id p := by
    intro p hp
    by_cases hpk : p.1 = k
    · rw [if_pos hpk, ← h2 p hp hpk]
      rfl
    · rw [if_neg hpk]
      rfl
  rw [map_eq_map _ id s hid, List.map_id]

/-- C7: in every session state, setting a slot and reading it back returns the
value just set; clearing a slot and reading it back returns empty; clearing a
slot that exists and is already empty leaves the state unchanged; and the
reset action leaves the three selection slots (department, accident type,
vehicle type) empty regardless of the prior state. -/
theorem spec_c7_selection_store :
    (∀ (s : SState) (k : String) (v : Option String),
        getSlot (setSlot s k v) k = v)
    ∧ (∀ (s : SState) (k : String), getSlot (clearSlot s k) k = none)
    ∧ (∀ (s : SState) (k : String), (s.lookup k).isSome →
        (∀ p ∈ s, p.1 = k → p.2 = none) → clearSlot s k = s)
    ∧ (∀ s : SState,
        getSlot (resetAll s) "departamento_seleccionado" = none ∧
        getSlot (resetAll s) "tipo_accidente_seleccionado" = none ∧
        getSlot (resetAll s) "tipo_vehiculo_seleccionado" = none) := by
  refine ⟨getSlot_setSlot_self, ?_, ?_, ?_⟩
  · intro s k
    exact getSlot_setSlot_self s k none
  · intro s k h1 h2
    exact setSlot_empty_noop s k h1 h2
  · intro s
    refine ⟨?_, ?_, ?_⟩
    · unfold resetAll
      rw [getSlot_setSlot_ne _ _ _ _ (by decide),
        getSlot_setSlot_ne _ _ _ _ (by decide), getSlot_setSlot_self]
    · unfold resetAll
      rw [getSlot_setSlot_ne _ _ _ _ (by decide), getSlot_setSlot_self]
    · unfold resetAll
      rw [getSlot_setSlot_self]

/-- C7 witness: the round-trip laws evaluated on the initial session state of
the dashboard and its department slot. -/
theorem spec_c7_selection_store_witness :
    getSlot (setSlot initSessionState "departamento_seleccionado"
      (some "Guatemala")) "departamento_seleccionado" = some "Guatemala"
    ∧ getSlot (clearSlot initSessionState "tipo_accidente_seleccionado")
        "tipo_accidente_seleccionado" = none
    ∧ clearSlot initSessionState "departamento_seleccionado" =
        initSessionState
    ∧ getSlot (resetAll initSessionState) "departamento_seleccionado" =
        none := by
  refine ⟨spec_c7_selection_store.1 initSessionState _ _,
    spec_c7_selection_store.2.1 initSessionState _,
    spec_c7_selection_store.2.2.1 initSessionState _ (by decide) ?_,
    (spec_c7_selection_store.2.2.2 initSessionState).1⟩
  intro p hp hk
  have : p = ("departamento_seleccionado", (none : Option String)) ∨
      p = ("tipo_accidente_seleccionado", none) ∨
      p = ("tipo_vehiculo_seleccionado", none) := by
    simpa [initSessionState] using hp
  rcases this with h | h | h <;> rw [h]

/-- C8 counterexample: assigning a slot name outside the three declared
dimensions does not fail and does not leave the state unchanged: the dashboard
state is a plain session mapping that accepts any key, so the new slot is
created and holds the assigned value; no InvalidSlotError exists anywhere in
the code. -/
theorem spec_c8_counterexample :
    setSlot initSessionState "hora_seleccionada" (some "5") ≠ initSessionState
    ∧ getSlot (setSlot initSessionState "hora_seleccionada" (some "5"))
        "hora_seleccionada" = some "5" := by
  constructor
  · decide
  · decide

/-- C8 amended: setting any slot name, declared or not, succeeds: the slot is
created or overwritten to the new value and every other slot keeps its prior
value.  No validation of slot names is performed. -/
theorem spec_c8_amended (s : SState) (k k2 : String) (v : Option String)
    (hne : k2 ≠ k) :
    getSlot (setSlot s k v) k = v ∧
      getSlot (setSlot s k v) k2 = getSlot s k2 :=
  ⟨getSlot_setSlot_self s k v, getSlot_setSlot_ne s k k2 v hne⟩

/-- C8 amended witness: the undeclared slot from the counterexample is
created while the department slot is untouched. -/
theorem spec_c8_amended_witness :
    getSlot (setSlot initSessionState "hora_seleccionada" (some "5"))
        "hora_seleccionada" = some "5"
    ∧ getSlot (setSlot initSessionState "hora_seleccionada" (some "5"))
        "departamento_seleccionado" =
        getSlot initSessionState "departamento_seleccionado" :=
  spec_c8_amended initSessionState "hora_seleccionada"
    "departamento_seleccionado" (some "5") (by decide)

/-- C2 (code_bug evidence): on the one-row scenario table (department
Guatemala, 2020 the string 100, 2021 the unparseable string abc, remaining
years missing), limpiar_cuadro1 aborts the whole table with ValueError at the
astype(int) step.  It neither emits the 2020 record nor counts the discarded
cell, while the claim requires one emitted record and a reported
coercion-failure count of 1; no discard counter exists anywhere in the code. -/
theorem spec_c2_scenario_abort :
    limpiar_cuadro1 dfC2 = .error PdError.valueError := by decide

theorem limpiar_cuadro38_eq (df : Table) :
    limpiar_cuadro38 df =
      filterNe df "grupos_de_edad" "Total" >>= fun t1 =>
        pure (dropColIfPresent t1 "fuente_cuadro") := rfl

theorem limpiar_cuadro54_eq_38 (df : Table) :
    limpiar_cuadro54 df = limpiar_cuadro38 df := rfl

/-- C10: limpiar_cuadro38 returns its input with exactly the rows whose
grupos_de_edad is Total removed and, when present, the fuente_cuadro column
removed; every remaining row keeps its other cells unchanged, and no melting,
coercion or null-dropping happens.  limpiar_cuadro54 returns the identical
result. -/
theorem spec_c10_frame (df out : Table) (h : limpiar_cuadro38 df = .ok out) :
    out.rows = (if "fuente_cuadro" ∈ df.cols then
        (retained df "grupos_de_edad").map (fun r => dropKey r "fuente_cuadro")
      else retained df "grupos_de_edad")
    ∧ out.cols = (if "fuente_cuadro" ∈ df.cols then
        df.cols.filter (fun d => d != "fuente_cuadro") else df.cols)
    ∧ limpiar_cuadro54 df = .ok out := by
  rw [limpiar_cuadro38_eq] at h
  obtain ⟨t1, ht1, hout⟩ := (bind_eq_ok _ _ _).mp h
  obtain ⟨hmem, hcols, hrows⟩ := filterNe_ok df t1 "grupos_de_edad" "Total" ht1
  have hout2 : out = dropColIfPresent t1 "fuente_cuadro" := by
    cases hout
    rfl
  subst hout2
  refine ⟨?_, ?_, ?_⟩
  · unfold dropColIfPresent
    by_cases hp : "fuente_cuadro" ∈ t1.cols
    · rw [if_pos hp, if_pos (hcols ▸ hp), hrows]
      rfl
    · rw [if_neg hp, if_neg (fun hc => hp (hcols ▸ hc)), hrows]
      rfl
  · unfold dropColIfPresent
    by_cases hp : "fuente_cuadro" ∈ t1.cols
    · rw [if_pos hp, if_pos (hcols ▸ hp), hcols]
    · rw [if_neg hp, if_neg (fun hc => hp (hcols ▸ hc)), hcols]
  · rw [limpiar_cuadro54_eq_38, limpiar_cuadro38_eq]
    rw [(bind_eq_ok _ _ _)]
    exact ⟨t1, ht1, rfl⟩

/-- C10 witness: the frame property evaluated on a two-row age table carrying
a Total row and a fuente_cuadro column. -/
theorem spec_c10_frame_witness :
    out10W.rows = (if "fuente_cuadro" ∈ df10W.cols then
        (retained df10W "grupos_de_edad").map
          (fun r => dropKey r "fuente_cuadro")
      else retained df10W "grupos_de_edad")
    ∧ out10W.cols = (if "fuente_cuadro" ∈ df10W.cols then
        df10W.cols.filter (fun d => d != "fuente_cuadro") else df10W.cols)
    ∧ limpiar_cuadro54 df10W = .ok out10W :=
  spec_c10_frame df10W out10W (by decide)

/-!
Error shapes of the pipeline steps: the row and column operations fail only
with KeyError; only astype(int) produces ValueError.
-/

theorem filterNe_error_shape (t : Table) (c s : String) (e : PdError)
    (h : filterNe t c s = .error e) : e = .keyError c := by
  by_cases hc : c ∈ t.cols
  · rw [filterNe, if_pos hc] at h
    cases h
  · rw [filterNe, if_neg hc] at h
    cases h
    rfl

theorem melt_error_shape (t : Table) (idVars valueVars : List String)
    (vn mn : String) (e : PdError)
    (h : melt t idVars valueVars vn mn = .error e) : ∃ c, e = .keyError c := by
  unfold melt at h
  split at h
  · cases h
    rename_i c hf
    exact ⟨c, rfl⟩
  · cases h

theorem dropCol_error_shape (t : Table) (c : String) (e : PdError)
    (h : dropCol t c = .error e) : e = .keyError c := by
  by_cases hc : c ∈ t.cols
  · rw [dropCol, if_pos hc] at h
    cases h
  · rw [dropCol, if_neg hc] at h
    cases h
    rfl

theorem addMesNum_error_shape (t : Table) (e : PdError)
    (h : addMesNum t = .error e) : e = .keyError "mes_de_ocurrencia" := by
  by_cases hc : "mes_de_ocurrencia" ∈ t.cols
  · rw [addMesNum, if_pos hc] at h
    cases h
  · rw [addMesNum, if_neg hc] at h
    cases h
    rfl

theorem addMesNum_ok (t u : Table) (h : addMesNum t = .ok u) :
    "mes_de_ocurrencia" ∈ t.cols ∧ u.cols = t.cols ++ ["mes_num"] ∧
      u.rows = t.rows.map (fun r =>
        r ++ [("mes_num", mapMes (lookupCell r "mes_de_ocurrencia"))]) := by
  by_cases hc : "mes_de_ocurrencia" ∈ t.cols
  · rw [addMesNum, if_pos hc] at h
    cases h
    exact ⟨hc, rfl, rfl⟩
  · rw [addMesNum, if_neg hc] at h
    cases h

theorem limpiar_cuadro9_eq (df : Table) :
    limpiar_cuadro9 df =
      filterNe df "mes_de_ocurrencia" "Total" >>= fun t1 =>
      melt (dropColIfPresent t1 "fuente_cuadro") ["mes_de_ocurrencia", "total"]
        tipoCols "tipo_accidente" "cantidad" >>= fun t3 =>
      dropCol t3 "total" >>= fun t4 =>
      addMesNum t4 := rfl

theorem limpiar_cuadro9_no_valueError (df : Table) :
    limpiar_cuadro9 df ≠ .error .valueError := by
  intro h
  rw [limpiar_cuadro9_eq] at h
  cases h1 : filterNe df "mes_de_ocurrencia" "Total" with
  | error e =>
      rw [h1] at h
      simp only [Bind.bind, Except.bind] at h
      cases h
      have := filterNe_error_shape df "mes_de_ocurrencia" "Total" _ h1
      cases this
  | ok t1 =>
      rw [h1] at h
      simp only [Bind.bind, Except.bind] at h
      cases h3 : melt (dropColIfPresent t1 "fuente_cuadro")
          ["mes_de_ocurrencia", "total"] tipoCols "tipo_accidente"
          "cantidad" with
      | error e =>
          rw [h3] at h
          cases h
          obtain ⟨c, hc⟩ := melt_error_shape _ _ _ _ _ _ h3
          cases hc
      | ok t3 =>
          rw [h3] at h
          simp only [Bind.bind, Except.bind] at h
          cases h4 : dropCol t3 "total" with
          | error e =>
              rw [h4] at h
              cases h
              have := dropCol_error_shape t3 "total" _ h4
              cases this
          | ok t4 =>
              rw [h4] at h
              have := addMesNum_error_shape t4 _ h
              cases this

theorem limpiar_cuadro9_mes_num (df out : Table)
    (h : limpiar_cuadro9 df = .ok out) :
    ∀ r ∈ out.rows,
      lookupCell r "mes_num" = mapMes (lookupCell r "mes_de_ocurrencia") := by
  rw [limpiar_cuadro9_eq] at h
  obtain ⟨t1, h1, h⟩ := (bind_eq_ok _ _ _).mp h
  obtain ⟨t3, h3, h⟩ := (bind_eq_ok _ _ _).mp h
  obtain ⟨t4, h4, h⟩ := (bind_eq_ok _ _ _).mp h
  obtain ⟨-, -, ht3rows⟩ := melt_ok _ t3 _ _ _ _ h3
  obtain ⟨-, -, ht4rows⟩ := dropCol_ok t3 t4 "total" h4
  obtain ⟨-, -, hurows⟩ := addMesNum_ok t4 out h
  intro r2 hr2
  rw [hurows] at hr2
  obtain ⟨r, hr, rfl⟩ := List.mem_map.mp hr2
  have hnone : r.lookup "mes_num" = none := by
    rw [ht4rows] at hr
    obtain ⟨rm, hrm, rfl⟩ := List.mem_map.mp hr
    rw [ht3rows] at hrm
    obtain ⟨v, -, hrm2⟩ := (mem_concatMap _ _ _).mp hrm
    obtain ⟨r0, -, rfl⟩ := List.mem_map.mp hrm2
    rw [lookup_dropKey_ne "mes_num" "total" (by decide) _]
    exact meltRow_lookup_none _ _ _ _ _ _ (by decide) (by decide) (by decide)
  rw [lookupCell_append_single_ne "mes_de_ocurrencia" "mes_num" _ r
    (by decide)]
  show lookupCell (r ++ [("mes_num", mapMes (lookupCell r
    "mes_de_ocurrencia"))]) "mes_num" = _
  unfold lookupCell
  rw [lookup_append_single_self "mes_num" _ r hnone]
  rfl

theorem limpiar_cuadro7_eq (df : Table) :
    limpiar_cuadro7 df = cuadro7_pre df >>= addHoraNum := rfl

theorem cuadro7_pre_eq (df : Table) :
    cuadro7_pre df =
      filterNe df "hora_de_ocurrencia" "Total" >>= fun t1 =>
      filterNe t1 "hora_de_ocurrencia" "Ignorada" >>= fun t2 =>
      melt (dropColIfPresent t2 "fuente_cuadro")
        ["hora_de_ocurrencia", "total"] diaCols "dia_semana"
        "accidentes" >>= fun t4 =>
      dropCol t4 "total" := rfl

theorem cuadro7_pre_cols (df t : Table) (h : cuadro7_pre df = .ok t) :
    t.cols = ["hora_de_ocurrencia", "dia_semana", "accidentes"] := by
  rw [cuadro7_pre_eq] at h
  obtain ⟨t1, h1, h⟩ := (bind_eq_ok _ _ _).mp h
  obtain ⟨t2, h2, h⟩ := (bind_eq_ok _ _ _).mp h
  obtain ⟨t4, h4, h⟩ := (bind_eq_ok _ _ _).mp h
  obtain ⟨-, ht4cols, -⟩ := melt_ok _ t4 _ _ _ _ h4
  obtain ⟨-, htcols, -⟩ := dropCol_ok t4 t "total" h
  rw [htcols, ht4cols]
  rfl

/-- C9 amended: a derived field computed by dictionary lookup never raises:
limpiar_cuadro9 cannot fail with ValueError, and every emitted record carries
in mes_num exactly the mapped month of its month cell, which is left unset
(NaN) for an unrecognized month name.  A derived field computed by regex
extraction behaves differently: when some retained record of the melted
cuadro7 table has an hour label the regex does not match, the astype(int) on
the extracted column raises ValueError and the whole table is aborted. -/
theorem spec_c9_amended (df9 out9 df7 t7 : Table)
    (h9 : limpiar_cuadro9 df9 = .ok out9)
    (h7 : cuadro7_pre df7 = .ok t7)
    (hbad : ∃ r ∈ t7.rows,
      extractHora (lookupCell r "hora_de_ocurrencia") = none) :
    (∀ df : Table, limpiar_cuadro9 df ≠ .error .valueError)
    ∧ (∀ r ∈ out9.rows,
        lookupCell r "mes_num" = mapMes (lookupCell r "mes_de_ocurrencia"))
    ∧ limpiar_cuadro7 df7 = .error .valueError := by
  refine ⟨limpiar_cuadro9_no_valueError, limpiar_cuadro9_mes_num df9 out9 h9,
    ?_⟩
  rw [limpiar_cuadro7_eq, h7]
  show addHoraNum t7 = .error .valueError
  have hcols := cuadro7_pre_cols df7 t7 h7
  have hmem : "hora_de_ocurrencia" ∈ t7.cols := by
    rw [hcols]
    decide
  rw [addHoraNum, if_pos hmem]
  have hall : ¬ (t7.rows.all (fun r =>
      (extractHora (lookupCell r "hora_de_ocurrencia")).isSome) = true) := by
    obtain ⟨r, hr, hnone⟩ := hbad
    intro hall
    have := List.all_eq_true.mp hall r hr
    rw [hnone] at this
    cases this
  rw [if_neg hall]

/-- C9 counterexample: a cuadro7 table whose hour label Madrugada has no
digits before a colon makes limpiar_cuadro7 raise ValueError, contradicting
the claim that a failed derived-field computation never raises and only
leaves the value unset. -/
theorem spec_c9_counterexample :
    limpiar_cuadro7 dfC9 = .error PdError.valueError := by decide

/-- C9 amended witness: the amended claim at a cuadro9 table with the unknown
month Eneroo and at the Madrugada cuadro7 table. -/
theorem spec_c9_amended_witness :
    (∀ df : Table, limpiar_cuadro9 df ≠ .error .valueError)
    ∧ (∀ r ∈ out9W.rows,
        lookupCell r "mes_num" = mapMes (lookupCell r "mes_de_ocurrencia"))
    ∧ limpiar_cuadro7 dfC9 = .error .valueError :=
  spec_c9_amended df9W out9W dfC9 preC9 (by decide) (by decide) (by decide)

theorem limpiar_cuadro1_eq (df : Table) :
    limpiar_cuadro1 df =
      filterNe df "departamento" "Total" >>= fun t1 =>
      melt (dropColIfPresent t1 "fuente_cuadro") ["departamento"] yearCols
        "año" "accidentes" >>= fun t3 =>
      astypeInt t3 "año" >>= fun t4 =>
      dropnaCol t4 "accidentes" >>= fun t5 =>
      astypeInt t5 "accidentes" := rfl

theorem limpiar_cuadro1_nodrop_eq (df : Table) :
    limpiar_cuadro1_nodrop df =
      filterNe df "departamento" "Total" >>= fun t1 =>
      melt t1 ["departamento"] yearCols "año" "accidentes" >>= fun t3 =>
      astypeInt t3 "año" >>= fun t4 =>
      dropnaCol t4 "accidentes" >>= fun t5 =>
      astypeInt t5 "accidentes" := rfl

theorem limpiar_cuadro47_eq (df : Table) :
    limpiar_cuadro47 df =
      filterNe df "departamento" "Total" >>= fun t1 =>
      melt (dropColIfPresent (dropColIfPresent
          (dropColIfPresent t1 "fuente_cuadro") "Unnamed: 6") "col_10")
        ["departamento"] yearCols "año" "fallecidos" >>= fun t3 =>
      astypeInt t3 "año" >>= fun t4 =>
      dropnaCol t4 "fallecidos" >>= fun t5 =>
      astypeInt t5 "fallecidos" := rfl

theorem limpiar_cuadro47_nodrop_eq (df : Table) :
    limpiar_cuadro47_nodrop df =
      filterNe df "departamento" "Total" >>= fun t1 =>
      melt t1 ["departamento"] yearCols "año" "fallecidos" >>= fun t3 =>
      astypeInt t3 "año" >>= fun t4 =>
      dropnaCol t4 "fallecidos" >>= fun t5 =>
      astypeInt t5 "fallecidos" := rfl

theorem melt_error_of_missing (t : Table) (idVars valueVars : List String)
    (vn mn : String) (y : String) (hy : y ∈ idVars ++ valueVars)
    (hyn : y ∉ t.cols) :
    ∃ c ∈ idVars ++ valueVars, c ∉ t.cols ∧
      melt t idVars valueVars vn mn = .error (.keyError c) := by
  have hsome : ((idVars ++ valueVars).find?
      (fun c => !(t.cols.contains c))).isSome := by
    rw [List.find?_isSome]
    refine ⟨y, hy, ?_⟩
    simp [hyn]
  cases hfind : (idVars ++ valueVars).find?
      (fun c => !(t.cols.contains c)) with
  | none =>
      rw [hfind] at hsome
      cases hsome
  | some c =>
      have hc1 : c ∈ idVars ++ valueVars := List.mem_of_find?_eq_some hfind
      have hc2 := List.find?_some hfind
      have hc3 : c ∉ t.cols := by simpa using hc2
      refine ⟨c, hc1, hc3, ?_⟩
      unfold melt
      rw [hfind]

/-- C6: a year table missing its identifier column or one of its five year
value columns makes limpiar_cuadro1 fail with a KeyError naming a column
absent from the table (the SchemaError of the spec), while the absence of an
optionally-dropped column is no error at all: on tables without fuente_cuadro
 (and, for limpiar_cuadro47, without Unnamed: 6 and col_10) the pipeline
computes exactly what it computes with the drop steps removed. -/
theorem spec_c6_schema_errors (df df47 : Table) :
    (("departamento" ∉ df.cols ∨ ∃ y ∈ yearCols, y ∉ df.cols) →
      ∃ c, limpiar_cuadro1 df = .error (.keyError c) ∧ c ∉ df.cols)
    ∧ ("fuente_cuadro" ∉ df.cols →
        limpiar_cuadro1 df = limpiar_cuadro1_nodrop df)
    ∧ (("fuente_cuadro" ∉ df47.cols ∧ "Unnamed: 6" ∉ df47.cols ∧
        "col_10" ∉ df47.cols) →
        limpiar_cuadro47 df47 = limpiar_cuadro47_nodrop df47) := by
  refine ⟨?_, ?_, ?_⟩
  · intro hmiss
    by_cases hdep : "departamento" ∈ df.cols
    · have hy : ∃ y ∈ yearCols, y ∉ df.cols := by
        cases hmiss with
        | inl hl => exact absurd hdep hl
        | inr hr => exact hr
      obtain ⟨y, hy1, hy2⟩ := hy
      have h1 : filterNe df "departamento" "Total" =
          .ok ⟨df.cols, df.rows.filter
            (fun r => lookupCell r "departamento" != Cell.str "Total")⟩ := by
        rw [filterNe, if_pos hdep]
      set T1 : Table := ⟨df.cols, df.rows.filter
        (fun r => lookupCell r "departamento" != Cell.str "Total")⟩ with hT1
      have hyT2 : y ∉ (dropColIfPresent T1 "fuente_cuadro").cols :=
        not_mem_dropColIfPresent_cols T1 "fuente_cuadro" y hy2
      obtain ⟨c, hcmem, hcnot, hcerr⟩ :=
        melt_error_of_missing (dropColIfPresent T1 "fuente_cuadro")
          ["departamento"] yearCols "año" "accidentes" y
          (List.mem_append_right _ hy1) hyT2
      have hymem : ∀ x ∈ yearCols, x ≠ "fuente_cuadro" := by decide
      have hcy : c ∈ yearCols := by
        cases List.mem_append.mp hcmem with
        | inl hl =>
            have hcd : c = "departamento" := by simpa using hl
            exact absurd ((mem_dropColIfPresent_cols T1 "fuente_cuadro" c
              (by rw [hcd]; decide)).mpr (by rw [hcd]; exact hdep)) hcnot
        | inr hr => exact hr
      refine ⟨c, ?_, ?_⟩
      · rw [limpiar_cuadro1_eq, h1]
        show (melt (dropColIfPresent T1 "fuente_cuadro") ["departamento"]
          yearCols "año" "accidentes" >>= _) = _
        rw [hcerr]
        rfl
      · intro hcdf
        exact hcnot ((mem_dropColIfPresent_cols T1 "fuente_cuadro" c
          (hymem c hcy)).mpr hcdf)
    · refine ⟨"departamento", ?_, hdep⟩
      rw [limpiar_cuadro1_eq, filterNe_error df "departamento" "Total" hdep]
      rfl
  · intro hf
    rw [limpiar_cuadro1_eq, limpiar_cuadro1_nodrop_eq]
    cases h1 : filterNe df "departamento" "Total" with
    | error e => rfl
    | ok t1 =>
        obtain ⟨-, hcols, -⟩ := filterNe_ok df t1 _ _ h1
        simp only [Bind.bind, Except.bind]
        rw [dropColIfPresent_absent t1 "fuente_cuadro"
          (fun hc => hf (hcols ▸ hc))]
  · rintro ⟨hf1, hf2, hf3⟩
    rw [limpiar_cuadro47_eq, limpiar_cuadro47_nodrop_eq]
    cases h1 : filterNe df47 "departamento" "Total" with
    | error e => rfl
    | ok t1 =>
        obtain ⟨-, hcols, -⟩ := filterNe_ok df47 t1 _ _ h1
        simp only [Bind.bind, Except.bind]
        rw [dropColIfPresent_absent t1 "fuente_cuadro"
            (fun hc => hf1 (hcols ▸ hc)),
          dropColIfPresent_absent t1 "Unnamed: 6"
            (fun hc => hf2 (hcols ▸ hc)),
          dropColIfPresent_absent t1 "col_10" (fun hc => hf3 (hcols ▸ hc))]

/-- C6 witness: a year table missing the 2022 column fails with a KeyError on
an absent column, and on tables without the optional columns the pipelines
agree with their no-drop variants. -/
theorem spec_c6_schema_errors_witness :
    (∃ c, limpiar_cuadro1 dfC6a = .error (.keyError c) ∧ c ∉ dfC6a.cols)
    ∧ limpiar_cuadro1 dfC6b = limpiar_cuadro1_nodrop dfC6b
    ∧ limpiar_cuadro47 dfC6b = limpiar_cuadro47_nodrop dfC6b := by
  have h := spec_c6_schema_errors dfC6a dfC6b
  have h2 := spec_c6_schema_errors dfC6b dfC6b
  exact ⟨h.1 (Or.inr ⟨"2022", by decide, by decide⟩), h2.2.1 (by decide),
    h.2.2 ⟨by decide, by decide, by decide⟩⟩

/-- C5 amended: when the three pivot columns exist and every one of the seven
weekdays occurs in at least one record with a non-missing hour, the heatmap is
produced with exactly 7 weekday columns in the fixed order lunes..domingo,
every grid row has 7 entries, each cell is the group sum of its (hour,
weekday) combination, and a combination with no matching record appears as a
null cell rather than being omitted.  When some weekday never occurs, the
column selection raises KeyError instead (see the counterexample). -/
theorem spec_c5_amended (t : Table)
    (h1 : "accidentes" ∈ t.cols) (h2 : "hora_de_ocurrencia" ∈ t.cols)
    (h3 : "dia_semana" ∈ t.cols)
    (hd : ∀ d ∈ diasOrdenados, Cell.str d ∈ diasPresentes t) :
    ∃ hm, crear_vis4_heatmap t = .ok hm
      ∧ hm.xcols = diasOrdenados
      ∧ hm.xcols.length = 7
      ∧ (∀ row ∈ hm.z, row.length = 7)
      ∧ hm.z = hm.yindex.map (fun hl =>
          diasOrdenados.map (fun d =>
            if hl ∈ horasPresentes t then cellSum t hl (Cell.str d) else none))
      ∧ (∀ hl : Cell, ∀ d ∈ diasOrdenados,
          (∀ r ∈ validRows t, ¬(lookupCell r "hora_de_ocurrencia" = hl ∧
            lookupCell r "dia_semana" = Cell.str d)) →
          cellSum t hl (Cell.str d) = none) := by
  have hf1 : (["accidentes", "hora_de_ocurrencia", "dia_semana"].find?
      (fun c => !(t.cols.contains c))) = none := by
    rw [List.find?_eq_none]
    intro x hx
    have hx3 : x = "accidentes" ∨ x = "hora_de_ocurrencia" ∨
        x = "dia_semana" := by simpa using hx
    rcases hx3 with rfl | rfl | rfl <;> simp [h1, h2, h3]
  have hf2 : (diasOrdenados.find?
      (fun d => !((diasPresentes t).contains (Cell.str d)))) = none := by
    rw [List.find?_eq_none]
    intro d hdm
    simp [hd d hdm]
  refine ⟨⟨diasOrdenados,
    (if "hora_num" ∈ t.cols then ordenHoras t else horasPresentes t),
    (if "hora_num" ∈ t.cols then ordenHoras t else horasPresentes t).map
      (fun hl => diasOrdenados.map (fun d =>
        if hl ∈ horasPresentes t then cellSum t hl (Cell.str d)
        else none))⟩, ?_, rfl, rfl, ?_, rfl, ?_⟩
  · unfold crear_vis4_heatmap
    rw [hf1, hf2]
  · intro row hrow
    obtain ⟨hl, -, rfl⟩ := List.mem_map.mp hrow
    rw [List.length_map]
    rfl
  · intro hl d hdm hnone
    have hfil : (validRows t).filter (fun r =>
        lookupCell r "hora_de_ocurrencia" == hl &&
          lookupCell r "dia_semana" == Cell.str d) = [] := by
      rw [List.filter_eq_nil_iff]
      intro r hr hb
      simp only [Bool.and_eq_true, beq_iff_eq] at hb
      exact hnone r hr hb
    unfold cellSum
    simp [hfil]

/-- C5 counterexample: on an input whose records only ever mention lunes, the
weekday column selection of the heatmap raises KeyError on martes instead of
returning seven zero-filled columns, so the aggregation does not return 7
entries for every input record collection. -/
theorem spec_c5_counterexample :
    crear_vis4_heatmap dfC5 = .error (PdError.keyError "martes") := by decide

/-- C5 amended witness: the heatmap shape on a table covering all seven
weekdays at one hour plus a second hour present only on lunes. -/
theorem spec_c5_amended_witness :
    ∃ hm, crear_vis4_heatmap df5W = .ok hm
      ∧ hm.xcols = diasOrdenados
      ∧ hm.xcols.length = 7
      ∧ (∀ row ∈ hm.z, row.length = 7)
      ∧ hm.z = hm.yindex.map (fun hl =>
          diasOrdenados.map (fun d =>
            if hl ∈ horasPresentes df5W then cellSum df5W hl (Cell.str d)
            else none))
      ∧ (∀ hl : Cell, ∀ d ∈ diasOrdenados,
          (∀ r ∈ validRows df5W, ¬(lookupCell r "hora_de_ocurrencia" = hl ∧
            lookupCell r "dia_semana" = Cell.str d)) →
          cellSum df5W hl (Cell.str d) = none) :=
  spec_c5_amended df5W (by decide) (by decide) (by decide) (by decide)

/-!
The Total drop predicate persists to the normalized output of every cleaning
function.
-/

theorem addHoraNum_ok (t u : Table) (h : addHoraNum t = .ok u) :
    "hora_de_ocurrencia" ∈ t.cols ∧
      (∀ r ∈ t.rows,
        (extractHora (lookupCell r "hora_de_ocurrencia")).isSome) ∧
      u.cols = t.cols ++ ["hora_num"] ∧
      u.rows = t.rows.map (fun r => r ++ [("hora_num",
        Cell.num ((extractHora
          (lookupCell r "hora_de_ocurrencia")).getD 0))]) := by
  by_cases hc : "hora_de_ocurrencia" ∈ t.cols
  · rw [addHoraNum, if_pos hc] at h
    by_cases hall : t.rows.all (fun r =>
        (extractHora (lookupCell r "hora_de_ocurrencia")).isSome)
    · rw [if_pos hall] at h
      cases h
      exact ⟨hc, List.all_eq_true.mp hall, rfl, rfl⟩
    · rw [if_neg hall] at h
      cases h
  · rw [addHoraNum, if_neg hc] at h
    cases h

theorem keepsCol_filterNe (t u : Table) (a s c : String)
    (h : filterNe t a s = .ok u) : keepsCol t.rows u.rows c := by
  obtain ⟨-, -, hrows⟩ := filterNe_ok t u a s h
  rw [hrows]
  exact keepsCol_filter t.rows _ c

theorem keepsCol_dropnaCol (t u : Table) (a c : String)
    (h : dropnaCol t a = .ok u) : keepsCol t.rows u.rows c := by
  obtain ⟨-, -, hrows⟩ := dropnaCol_ok t u a h
  rw [hrows]
  exact keepsCol_filter t.rows _ c

theorem keepsCol_astypeInt (t u : Table) (a c : String) (hne : c ≠ a)
    (h : astypeInt t a = .ok u) : keepsCol t.rows u.rows c := by
  obtain ⟨-, -, -, hrows⟩ := astypeInt_ok t u a h
  rw [hrows]
  exact keepsCol_map t.rows _ c (fun r => lookupCell_updKey_ne c a _ hne r)

theorem keepsCol_dropCol (t u : Table) (a c : String) (hne : c ≠ a)
    (h : dropCol t a = .ok u) : keepsCol t.rows u.rows c := by
  obtain ⟨-, -, hrows⟩ := dropCol_ok t u a h
  rw [hrows]
  exact keepsCol_map t.rows _ c (fun r => lookupCell_dropKey_ne c a hne r)

theorem keepsCol_melt_ok (t u : Table) (idVars valueVars : List String)
    (vn mn c : String) (hc : c ∈ idVars)
    (h : melt t idVars valueVars vn mn = .ok u) :
    keepsCol t.rows u.rows c := by
  obtain ⟨-, -, hrows⟩ := melt_ok t u _ _ _ _ h
  rw [hrows]
  exact keepsCol_melt t.rows idVars valueVars vn mn c hc

theorem keepsCol_addMesNum (t u : Table) (c : String) (hne : c ≠ "mes_num")
    (h : addMesNum t = .ok u) : keepsCol t.rows u.rows c := by
  obtain ⟨-, -, hrows⟩ := addMesNum_ok t u h
  rw [hrows]
  exact keepsCol_map t.rows _ c
    (fun r => lookupCell_append_single_ne c "mes_num" _ r hne)

theorem keepsCol_addHoraNum (t u : Table) (c : String) (hne : c ≠ "hora_num")
    (h : addHoraNum t = .ok u) : keepsCol t.rows u.rows c := by
  obtain ⟨-, -, -, hrows⟩ := addHoraNum_ok t u h
  rw [hrows]
  exact keepsCol_map t.rows _ c
    (fun r => lookupCell_append_single_ne c "hora_num" _ r hne)

theorem noTotal_chain (df t1 out : Table) (c : String)
    (h1 : filterNe df c "Total" = .ok t1)
    (hk : keepsCol t1.rows out.rows c) : noTotalIn out c := by
  intro r hr
  exact keepsCol_pred t1.rows out.rows c (fun x => x ≠ Cell.str "Total") hk
    (filterNe_rows_ne df t1 c "Total" h1) r hr

theorem limpiar_cuadro3_eq (df : Table) :
    limpiar_cuadro3 df =
      filterNe df "departamento" "Total" >>= fun t1 =>
      melt (dropColIfPresent t1 "fuente_cuadro") ["departamento", "total"]
        diaCols "dia_semana" "accidentes" >>= fun t3 =>
      dropCol t3 "total" := rfl

theorem limpiar_cuadro18_eq (df : Table) :
    limpiar_cuadro18 df =
      filterNe df "tipo_de_vehiculo" "Total" >>= fun t1 =>
      melt (dropColIfPresent (dropColIfPresent t1 "fuente_cuadro") "col_12")
        ["tipo_de_vehiculo", "total"] tipoCols "tipo_accidente"
        "cantidad" >>= fun t3 =>
      dropCol t3 "total" := rfl

theorem limpiar_cuadro31_eq (df : Table) :
    limpiar_cuadro31 df =
      filterNe df "departamento" "Total" >>= fun t1 =>
      melt (dropColIfPresent t1 "fuente_cuadro") ["departamento"] yearCols
        "año" "lesionados" >>= fun t3 =>
      astypeInt t3 "año" >>= fun t4 =>
      dropnaCol t4 "lesionados" >>= fun t5 =>
      astypeInt t5 "lesionados" := rfl

theorem cuadro1_no_total (df out : Table) (h : limpiar_cuadro1 df = .ok out) :
    noTotalIn out "departamento" := by
  rw [limpiar_cuadro1_eq] at h
  obtain ⟨t1, h1, h⟩ := (bind_eq_ok _ _ _).mp h
  obtain ⟨t3, h3, h⟩ := (bind_eq_ok _ _ _).mp h
  obtain ⟨t4, h4, h⟩ := (bind_eq_ok _ _ _).mp h
  obtain ⟨t5, h5, h⟩ := (bind_eq_ok _ _ _).mp h
  refine noTotal_chain df t1 out "departamento" h1 ?_
  exact keepsCol_trans _ _ _ _ (keepsCol_trans _ _ _ _ (keepsCol_trans _ _ _ _
    (keepsCol_trans _ _ _ _ (keepsCol_dropColIfPresent t1 "fuente_cuadro" _
      (by decide))
      (keepsCol_melt_ok _ t3 _ _ _ _ "departamento" (by decide) h3))
    (keepsCol_astypeInt t3 t4 "año" _ (by decide) h4))
    (keepsCol_dropnaCol t4 t5 "accidentes" _ h5))
    (keepsCol_astypeInt t5 out "accidentes" _ (by decide) h)

theorem cuadro31_no_total (df out : Table)
    (h : limpiar_cuadro31 df = .ok out) : noTotalIn out "departamento" := by
  rw [limpiar_cuadro31_eq] at h
  obtain ⟨t1, h1, h⟩ := (bind_eq_ok _ _ _).mp h
  obtain ⟨t3, h3, h⟩ := (bind_eq_ok _ _ _).mp h
  obtain ⟨t4, h4, h⟩ := (bind_eq_ok _ _ _).mp h
  obtain ⟨t5, h5, h⟩ := (bind_eq_ok _ _ _).mp h
  refine noTotal_chain df t1 out "departamento" h1 ?_
  exact keepsCol_trans _ _ _ _ (keepsCol_trans _ _ _ _ (keepsCol_trans _ _ _ _
    (keepsCol_trans _ _ _ _ (keepsCol_dropColIfPresent t1 "fuente_cuadro" _
      (by decide))
      (keepsCol_melt_ok _ t3 _ _ _ _ "departamento" (by decide) h3))
    (keepsCol_astypeInt t3 t4 "año" _ (by decide) h4))
    (keepsCol_dropnaCol t4 t5 "lesionados" _ h5))
    (keepsCol_astypeInt t5 out "lesionados" _ (by decide) h)

theorem cuadro47_no_total (df out : Table)
    (h : limpiar_cuadro47 df = .ok out) : noTotalIn out "departamento" := by
  rw [limpiar_cuadro47_eq] at h
  obtain ⟨t1, h1, h⟩ := (bind_eq_ok _ _ _).mp h
  obtain ⟨t3, h3, h⟩ := (bind_eq_ok _ _ _).mp h
  obtain ⟨t4, h4, h⟩ := (bind_eq_ok _ _ _).mp h
  obtain ⟨t5, h5, h⟩ := (bind_eq_ok _ _ _).mp h
  refine noTotal_chain df t1 out "departamento" h1 ?_
  have hdrop : keepsCol t1.rows (dropColIfPresent (dropColIfPresent
      (dropColIfPresent t1 "fuente_cuadro") "Unnamed: 6")
      "col_10").rows "departamento" :=
    keepsCol_trans _ _ _ _ (keepsCol_trans _ _ _ _
      (keepsCol_dropColIfPresent t1 "fuente_cuadro" _ (by decide))
      (keepsCol_dropColIfPresent _ "Unnamed: 6" _ (by decide)))
      (keepsCol_dropColIfPresent _ "col_10" _ (by decide))
  exact keepsCol_trans _ _ _ _ (keepsCol_trans _ _ _ _ (keepsCol_trans _ _ _ _
    (keepsCol_trans _ _ _ _ hdrop
      (keepsCol_melt_ok _ t3 _ _ _ _ "departamento" (by decide) h3))
    (keepsCol_astypeInt t3 t4 "año" _ (by decide) h4))
    (keepsCol_dropnaCol t4 t5 "fallecidos" _ h5))
    (keepsCol_astypeInt t5 out "fallecidos" _ (by decide) h)

theorem cuadro3_no_total (df out : Table) (h : limpiar_cuadro3 df = .ok out) :
    noTotalIn out "departamento" := by
  rw [limpiar_cuadro3_eq] at h
  obtain ⟨t1, h1, h⟩ := (bind_eq_ok _ _ _).mp h
  obtain ⟨t3, h3, h⟩ := (bind_eq_ok _ _ _).mp h
  refine noTotal_chain df t1 out "departamento" h1 ?_
  exact keepsCol_trans _ _ _ _ (keepsCol_trans _ _ _ _
    (keepsCol_dropColIfPresent t1 "fuente_cuadro" _ (by decide))
    (keepsCol_melt_ok _ t3 _ _ _ _ "departamento" (by decide) h3))
    (keepsCol_dropCol t3 out "total" _ (by decide) h)

theorem cuadro18_no_total (df out : Table)
    (h : limpiar_cuadro18 df = .ok out) :
    noTotalIn out "tipo_de_vehiculo" := by
  rw [limpiar_cuadro18_eq] at h
  obtain ⟨t1, h1, h⟩ := (bind_eq_ok _ _ _).mp h
  obtain ⟨t3, h3, h⟩ := (bind_eq_ok _ _ _).mp h
  refine noTotal_chain df t1 out "tipo_de_vehiculo" h1 ?_
  exact keepsCol_trans _ _ _ _ (keepsCol_trans _ _ _ _ (keepsCol_trans _ _ _ _
    (keepsCol_dropColIfPresent t1 "fuente_cuadro" _ (by decide))
    (keepsCol_dropColIfPresent _ "col_12" _ (by decide)))
    (keepsCol_melt_ok _ t3 _ _ _ _ "tipo_de_vehiculo" (by decide) h3))
    (keepsCol_dropCol t3 out "total" _ (by decide) h)

theorem cuadro9_no_total (df out : Table) (h : limpiar_cuadro9 df = .ok out) :
    noTotalIn out "mes_de_ocurrencia" := by
  rw [limpiar_cuadro9_eq] at h
  obtain ⟨t1, h1, h⟩ := (bind_eq_ok _ _ _).mp h
  obtain ⟨t3, h3, h⟩ := (bind_eq_ok _ _ _).mp h
  obtain ⟨t4, h4, h⟩ := (bind_eq_ok _ _ _).mp h
  refine noTotal_chain df t1 out "mes_de_ocurrencia" h1 ?_
  exact keepsCol_trans _ _ _ _ (keepsCol_trans _ _ _ _ (keepsCol_trans _ _ _ _
    (keepsCol_dropColIfPresent t1 "fuente_cuadro" _ (by decide))
    (keepsCol_melt_ok _ t3 _ _ _ _ "mes_de_ocurrencia" (by decide) h3))
    (keepsCol_dropCol t3 t4 "total" _ (by decide) h4))
    (keepsCol_addMesNum t4 out _ (by decide) h)

theorem cuadro7_no_total (df out : Table) (h : limpiar_cuadro7 df = .ok out) :
    noTotalIn out "hora_de_ocurrencia" := by
  rw [limpiar_cuadro7_eq] at h
  obtain ⟨tp, hp, h⟩ := (bind_eq_ok _ _ _).mp h
  rw [cuadro7_pre_eq] at hp
  obtain ⟨t1, h1, hp⟩ := (bind_eq_ok _ _ _).mp hp
  obtain ⟨t2, h2, hp⟩ := (bind_eq_ok _ _ _).mp hp
  obtain ⟨t4, h4, hp⟩ := (bind_eq_ok _ _ _).mp hp
  refine noTotal_chain df t1 out "hora_de_ocurrencia" h1 ?_
  exact keepsCol_trans _ _ _ _ (keepsCol_trans _ _ _ _ (keepsCol_trans _ _ _ _
    (keepsCol_trans _ _ _ _ (keepsCol_filterNe t1 t2 "hora_de_ocurrencia"
      "Ignorada" _ h2)
    (keepsCol_dropColIfPresent t2 "fuente_cuadro" _ (by decide)))
    (keepsCol_melt_ok _ t4 _ _ _ _ "hora_de_ocurrencia" (by decide) h4))
    (keepsCol_dropCol t4 tp "total" _ (by decide) hp))
    (keepsCol_addHoraNum tp out _ (by decide) h)

theorem cuadro38_no_total (df out : Table)
    (h : limpiar_cuadro38 df = .ok out) : noTotalIn out "grupos_de_edad" := by
  rw [limpiar_cuadro38_eq] at h
  obtain ⟨t1, h1, h⟩ := (bind_eq_ok _ _ _).mp h
  have hout : out = dropColIfPresent t1 "fuente_cuadro" := by
    cases h
    rfl
  subst hout
  exact noTotal_chain df t1 _ "grupos_de_edad" h1
    (keepsCol_dropColIfPresent t1 "fuente_cuadro" _ (by decide))

theorem cuadro54_no_total (df out : Table)
    (h : limpiar_cuadro54 df = .ok out) : noTotalIn out "grupos_de_edad" :=
  cuadro38_no_total df out ((limpiar_cuadro54_eq_38 df).symm.trans h)

/-- C4: every cleaning function applies a row filter dropping the sentinel
value Total on its identifier column, and no record of any normalized output
carries Total in that column: departamento for cuadros 1, 3, 31, 47,
hora_de_ocurrencia for cuadro 7, mes_de_ocurrencia for cuadro 9,
tipo_de_vehiculo for cuadro 18, grupos_de_edad for cuadros 38 and 54. -/
theorem spec_c4_no_total (d1 o1 d3 o3 d7 o7 d9 o9 d18 o18 d31 o31 d38 o38
    d47 o47 d54 o54 : Table)
    (h1 : limpiar_cuadro1 d1 = .ok o1) (h3 : limpiar_cuadro3 d3 = .ok o3)
    (h7 : limpiar_cuadro7 d7 = .ok o7) (h9 : limpiar_cuadro9 d9 = .ok o9)
    (h18 : limpiar_cuadro18 d18 = .ok o18)
    (h31 : limpiar_cuadro31 d31 = .ok o31)
    (h38 : limpiar_cuadro38 d38 = .ok o38)
    (h47 : limpiar_cuadro47 d47 = .ok o47)
    (h54 : limpiar_cuadro54 d54 = .ok o54) :
    noTotalIn o1 "departamento" ∧ noTotalIn o3 "departamento" ∧
      noTotalIn o7 "hora_de_ocurrencia" ∧ noTotalIn o9 "mes_de_ocurrencia" ∧
      noTotalIn o18 "tipo_de_vehiculo" ∧ noTotalIn o31 "departamento" ∧
      noTotalIn o38 "grupos_de_edad" ∧ noTotalIn o47 "departamento" ∧
      noTotalIn o54 "grupos_de_edad" :=
  ⟨cuadro1_no_total d1 o1 h1, cuadro3_no_total d3 o3 h3,
    cuadro7_no_total d7 o7 h7, cuadro9_no_total d9 o9 h9,
    cuadro18_no_total d18 o18 h18, cuadro31_no_total d31 o31 h31,
    cuadro38_no_total d38 o38 h38, cuadro47_no_total d47 o47 h47,
    cuadro54_no_total d54 o54 h54⟩

/-- C4 witness: the nine cleaning functions evaluated on small tables that
each contain a Total row. -/
theorem spec_c4_no_total_witness :
    noTotalIn out4a "departamento" ∧ noTotalIn out4b "departamento" ∧
      noTotalIn out4c "hora_de_ocurrencia" ∧
      noTotalIn out4d "mes_de_ocurrencia" ∧
      noTotalIn out4e "tipo_de_vehiculo" ∧ noTotalIn out4f "departamento" ∧
      noTotalIn out4g "grupos_de_edad" ∧ noTotalIn out4h "departamento" ∧
      noTotalIn out4i "grupos_de_edad" :=
  spec_c4_no_total df4yr out4a df4dia out4b df4hora out4c df4mes out4d
    df4veh out4e df4yr out4f df4edad out4g df4yr out4h df4edad out4i
    (by decide) (by decide) (by decide) (by decide) (by decide) (by decide)
    (by decide) (by decide) (by decide)

/-!
Conservation of the measure column through the pipeline.
-/

theorem colCells_melt_measure (t u : Table) (idVars valueVars : List String)
    (vn mn : String) (h : melt t idVars valueVars vn mn = .ok u)
    (h1 : mn ∉ idVars) (h2 : mn ≠ vn) :
    colCells u mn = sourceCells t.rows valueVars := by
  obtain ⟨-, -, hrows⟩ := melt_ok t u _ _ _ _ h
  unfold colCells sourceCells
  rw [hrows, concatMap_map]
  apply concatMap_congr
  intro v _
  rw [List.map_map]
  exact map_eq_map _ _ _
    (fun r _ => lookupCell_meltRow_measure idVars vn mn v r h1 h2)

theorem sourceCells_dropColIfPresent (t : Table) (d : String)
    (vcols : List String) (h : ∀ v ∈ vcols, v ≠ d) :
    sourceCells (dropColIfPresent t d).rows vcols =
      sourceCells t.rows vcols := by
  unfold sourceCells
  apply concatMap_congr
  intro v hv
  exact dropColIfPresent_colCells t d v (h v hv)

theorem colCells_astypeInt_ne (t u : Table) (a c : String) (hne : c ≠ a)
    (h : astypeInt t a = .ok u) : colCells u c = colCells t c := by
  obtain ⟨-, -, -, hrows⟩ := astypeInt_ok t u a h
  unfold colCells
  rw [hrows, List.map_map]
  exact map_eq_map _ _ _ (fun r _ => lookupCell_updKey_ne c a _ hne r)

theorem colCells_dropCol_ne (t u : Table) (a c : String) (hne : c ≠ a)
    (h : dropCol t a = .ok u) : colCells u c = colCells t c := by
  obtain ⟨-, -, hrows⟩ := dropCol_ok t u a h
  unfold colCells
  rw [hrows, List.map_map]
  exact map_eq_map _ _ _ (fun r _ => lookupCell_dropKey_ne c a hne r)

theorem lookup_isSome_of_lookupCell_ne_null (r : Row) (c : String)
    (h : lookupCell r c ≠ Cell.null) : (r.lookup c).isSome := by
  unfold lookupCell at h
  cases hl : r.lookup c with
  | none =>
      rw [hl] at h
      exact absurd rfl h
  | some w => rfl

theorem dropnaCol_rows_ne_null (t u : Table) (c : String)
    (h : dropnaCol t c = .ok u) :
    ∀ r ∈ u.rows, lookupCell r c ≠ Cell.null := by
  obtain ⟨-, -, hrows⟩ := dropnaCol_ok t u c h
  intro r hr
  rw [hrows] at hr
  exact bne_iff_ne.mp (List.mem_filter.mp hr).2

theorem colCells_astypeInt_self_of_some (t u : Table) (c : String)
    (h : astypeInt t c = .ok u)
    (hsome : ∀ r ∈ t.rows, (r.lookup c).isSome) :
    colCells u c =
      t.rows.map (fun r => Cell.num (cellVal (lookupCell r c))) := by
  obtain ⟨-, -, -, hrows⟩ := astypeInt_ok t u c h
  unfold colCells
  rw [hrows, List.map_map]
  apply map_eq_map
  intro r hr
  show lookupCell (updKey r c (Cell.num ((coerceInt (lookupCell r c)).getD 0)))
      c = Cell.num (cellVal (lookupCell r c))
  unfold lookupCell
  rw [lookup_updKey_self]
  cases hl : r.lookup c with
  | none =>
      have := hsome r hr
      rw [hl] at this
      cases this
  | some w =>
      simp [cellVal, lookupCell, hl]

theorem length_filter_comp {α β : Type} (g : α → β) (q : β → Bool)
    (l : List α) :
    ((l.map g).filter q).length = (l.filter (fun a => q (g a))).length := by
  induction l with
  | nil => rfl
  | cons a l ih =>
      by_cases hq : q (g a) = true
      · simp [List.filter_cons, hq, ih]
      · have hq2 : q (g a) = false := Bool.eq_false_iff.mpr hq
        simp [List.filter_cons, hq2, ih]

theorem final_astype_facts (t4 t5 out : Table) (c : String)
    (h5 : dropnaCol t4 c = .ok t5) (h6 : astypeInt t5 c = .ok out) :
    colCells out c =
        t5.rows.map (fun r => Cell.num (cellVal (lookupCell r c)))
    ∧ ((colCells out c).map cellVal).sum = ((colCells t4 c).map cellVal).sum
    ∧ out.rows.length + failCount (colCells t4 c) =
        (colCells t4 c).length := by
  obtain ⟨-, hall, -, hrows6⟩ := astypeInt_ok t5 out c h6
  obtain ⟨-, -, hrows5⟩ := dropnaCol_ok t4 t5 c h5
  have hnn := dropnaCol_rows_ne_null t4 t5 c h5
  have hsome : ∀ r ∈ t5.rows, (r.lookup c).isSome :=
    fun r hr => lookup_isSome_of_lookupCell_ne_null r c (hnn r hr)
  have hcol := colCells_astypeInt_self_of_some t5 out c h6 hsome
  have hzero : ∀ r ∈ t4.rows,
      (lookupCell r c != Cell.null) = false → cellVal (lookupCell r c) = 0 := by
    intro r _ hb
    have hnull : lookupCell r c = Cell.null := by
      by_contra hne
      have := bne_iff_ne.mpr hne
      rw [hb] at this
      cases this
    rw [hnull]
    rfl
  refine ⟨hcol, ?_, ?_⟩
  · rw [hcol, List.map_map]
    have e1 : t5.rows.map
        (cellVal ∘ fun r => Cell.num (cellVal (lookupCell r c))) =
        t5.rows.map (fun r => cellVal (lookupCell r c)) :=
      map_eq_map _ _ _ (fun r _ => rfl)
    rw [e1, hrows5, sum_map_filter_of_zero _ _ _ hzero]
    unfold colCells
    rw [List.map_map]
    rfl
  · have hsome2 : ∀ x ∈ colCells t4 c, x ≠ Cell.null →
        (coerceInt x).isSome := by
      intro x hx hxne
      unfold colCells at hx
      obtain ⟨r, hr, rfl⟩ := List.mem_map.mp hx
      have hrt5 : r ∈ t5.rows := by
        rw [hrows5]
        exact List.mem_filter.mpr ⟨hr, bne_iff_ne.mpr hxne⟩
      exact hall r hrt5
    have hmain := length_filter_coerce (colCells t4 c) hsome2
    rw [hrows6, List.length_map, hrows5]
    unfold failCount
    rw [← hmain]
    congr 1
    unfold colCells
    rw [length_filter_comp]

theorem cuadro1_chain (df out : Table) (h : limpiar_cuadro1 df = .ok out) :
    ∃ t4 t5 : Table,
      colCells t4 "accidentes" =
        sourceCells (retained df "departamento") yearCols
      ∧ dropnaCol t4 "accidentes" = .ok t5
      ∧ astypeInt t5 "accidentes" = .ok out := by
  rw [limpiar_cuadro1_eq] at h
  obtain ⟨t1, h1, h⟩ := (bind_eq_ok _ _ _).mp h
  obtain ⟨t3, h3, h⟩ := (bind_eq_ok _ _ _).mp h
  obtain ⟨t4, h4, h⟩ := (bind_eq_ok _ _ _).mp h
  obtain ⟨t5, h5, h⟩ := (bind_eq_ok _ _ _).mp h
  refine ⟨t4, t5, ?_, h5, h⟩
  obtain ⟨-, -, hrows1⟩ := filterNe_ok df t1 _ _ h1
  rw [colCells_astypeInt_ne t3 t4 "año" _ (by decide) h4,
    colCells_melt_measure _ t3 _ _ _ _ h3 (by decide) (by decide),
    sourceCells_dropColIfPresent t1 "fuente_cuadro" yearCols (by decide),
    hrows1]
  rfl

theorem cuadro3_conservation (df out : Table)
    (h : limpiar_cuadro3 df = .ok out) :
    colCells out "accidentes" =
      sourceCells (retained df "departamento") diaCols := by
  rw [limpiar_cuadro3_eq] at h
  obtain ⟨t1, h1, h⟩ := (bind_eq_ok _ _ _).mp h
  obtain ⟨t3, h3, h⟩ := (bind_eq_ok _ _ _).mp h
  obtain ⟨-, -, hrows1⟩ := filterNe_ok df t1 _ _ h1
  rw [colCells_dropCol_ne t3 out "total" "accidentes" (by decide) h,
    colCells_melt_measure _ t3 _ _ _ _ h3 (by decide) (by decide),
    sourceCells_dropColIfPresent t1 "fuente_cuadro" diaCols (by decide),
    hrows1]
  rfl

theorem cuadro18_conservation (df out : Table)
    (h : limpiar_cuadro18 df = .ok out) :
    colCells out "cantidad" =
      sourceCells (retained df "tipo_de_vehiculo") tipoCols := by
  rw [limpiar_cuadro18_eq] at h
  obtain ⟨t1, h1, h⟩ := (bind_eq_ok _ _ _).mp h
  obtain ⟨t3, h3, h⟩ := (bind_eq_ok _ _ _).mp h
  obtain ⟨-, -, hrows1⟩ := filterNe_ok df t1 _ _ h1
  rw [colCells_dropCol_ne t3 out "total" "cantidad" (by decide) h,
    colCells_melt_measure _ t3 _ _ _ _ h3 (by decide) (by decide),
    sourceCells_dropColIfPresent _ "col_12" tipoCols (by decide),
    sourceCells_dropColIfPresent t1 "fuente_cuadro" tipoCols (by decide),
    hrows1]
  rfl

/-- C1: conservation law.  For every successful run of limpiar_cuadro1, the
sum of the emitted accidentes measures equals the sum of the coercible
year-column cells of the rows kept by the Total drop (cells failing coercion
contribute nothing), and the number of emitted records plus the number of
cells that fail integer coercion equals the total number of value cells, so
the discard count accounts exactly for the difference.  For every successful
run of limpiar_cuadro3, which applies no coercion, the emitted accidentes
cells are exactly the weekday cells of the kept rows, with zero discards, and
the sums agree likewise. -/
theorem spec_c1_conservation (df df3 out out3 : Table)
    (h1 : limpiar_cuadro1 df = .ok out)
    (h3 : limpiar_cuadro3 df3 = .ok out3) :
    measureSum out "accidentes" =
        ((sourceCells (retained df "departamento") yearCols).map cellVal).sum
    ∧ out.rows.length +
        failCount (sourceCells (retained df "departamento") yearCols) =
        (sourceCells (retained df "departamento") yearCols).length
    ∧ colCells out3 "accidentes" =
        sourceCells (retained df3 "departamento") diaCols
    ∧ measureSum out3 "accidentes" =
        ((sourceCells (retained df3 "departamento") diaCols).map
          cellVal).sum := by
  obtain ⟨t4, t5, hc, h5, h6⟩ := cuadro1_chain df out h1
  obtain ⟨-, hsum, hcount⟩ := final_astype_facts t4 t5 out "accidentes" h5 h6
  have hc3 := cuadro3_conservation df3 out3 h3
  refine ⟨?_, ?_, hc3, ?_⟩
  · unfold measureSum
    rw [hsum, hc]
  · rw [← hc]
    exact hcount
  · unfold measureSum
    rw [hc3]

/-- C1 witness: the conservation law on a two-row year table whose Total row
is dropped and whose 2024 cell is missing (4 emitted records summing 10, one
discarded cell out of 5), and on a one-row weekday table (7 records emitted
verbatim). -/
theorem spec_c1_conservation_witness :
    measureSum out1W "accidentes" =
        ((sourceCells (retained df1W "departamento") yearCols).map
          cellVal).sum
    ∧ out1W.rows.length +
        failCount (sourceCells (retained df1W "departamento") yearCols) =
        (sourceCells (retained df1W "departamento") yearCols).length
    ∧ colCells out3W "accidentes" =
        sourceCells (retained df3W "departamento") diaCols
    ∧ measureSum out3W "accidentes" =
        ((sourceCells (retained df3W "departamento") diaCols).map
          cellVal).sum :=
  spec_c1_conservation df1W df3W out1W out3W (by decide) (by decide)

/-- C3 counterexample: the stated invariant fails on the code.  On a cuadro18
table whose colision cell is missing, the normalized output retains a record
whose cantidad measure is null instead of dropping it; and on a cuadro1 table
with the cell -3, the output contains the measure -3, which is not a
non-negative integer. -/
theorem spec_c3_counterexample :
    onOk (limpiar_cuadro18 dfC3a)
        (fun t => t.rows.any
          (fun r => lookupCell r "cantidad" == Cell.null)) = true
    ∧ onOk (limpiar_cuadro1 dfC3b)
        (fun t => (colCells t "accidentes").contains (Cell.num (-3))) =
        true := by
  constructor
  · decide
  · decide


theorem filter_map_comm {α β : Type} (g : α → β) (q : β → Bool)
    (l : List α) :
    (l.map g).filter q = (l.filter (fun a => q (g a))).map g := by
  induction l with
  | nil => rfl
  | cons a l ih =>
      by_cases hq : q (g a) = true
      · simp [List.filter_cons, hq, ih]
      · have hq2 : q (g a) = false := Bool.eq_false_iff.mpr hq
        simp [List.filter_cons, hq2, ih]

/-- Through dropna followed by astype(int), the measure column of the output
is exactly the list of non-null cells of the incoming measure column, each
replaced by its coerced integer: null cells are removed by the filter, never
turned into zeros, and no other cell is altered beyond the coercion. -/
theorem final_astype_filter (t4 t5 out : Table) (c : String)
    (h5 : dropnaCol t4 c = .ok t5) (h6 : astypeInt t5 c = .ok out) :
    colCells out c = ((colCells t4 c).filter (fun x => x != Cell.null)).map
      (fun x => Cell.num (cellVal x)) := by
  obtain ⟨hcol, -, -⟩ := final_astype_facts t4 t5 out c h5 h6
  obtain ⟨-, -, hrows5⟩ := dropnaCol_ok t4 t5 c h5
  rw [hcol, hrows5]
  unfold colCells
  rw [filter_map_comm, List.map_map]
  rfl

theorem measures_are_ints (out : Table) (c : String) (cells : List Cell)
    (h : colCells out c = (cells.filter (fun x => x != Cell.null)).map
      (fun x => Cell.num (cellVal x))) :
    ∀ r ∈ out.rows, ∃ n : Int, lookupCell r c = Cell.num n := by
  intro r hr
  have hmem : lookupCell r c ∈ colCells out c := by
    unfold colCells
    exact List.mem_map_of_mem _ hr
  rw [h] at hmem
  obtain ⟨x, -, heq⟩ := List.mem_map.mp hmem
  exact ⟨cellVal x, heq.symm⟩

theorem cuadro31_chain (df out : Table) (h : limpiar_cuadro31 df = .ok out) :
    ∃ t4 t5 : Table,
      colCells t4 "lesionados" =
        sourceCells (retained df "departamento") yearCols
      ∧ dropnaCol t4 "lesionados" = .ok t5
      ∧ astypeInt t5 "lesionados" = .ok out := by
  rw [limpiar_cuadro31_eq] at h
  obtain ⟨t1, h1, h⟩ := (bind_eq_ok _ _ _).mp h
  obtain ⟨t3, h3, h⟩ := (bind_eq_ok _ _ _).mp h
  obtain ⟨t4, h4, h⟩ := (bind_eq_ok _ _ _).mp h
  obtain ⟨t5, h5, h⟩ := (bind_eq_ok _ _ _).mp h
  refine ⟨t4, t5, ?_, h5, h⟩
  obtain ⟨-, -, hrows1⟩ := filterNe_ok df t1 _ _ h1
  rw [colCells_astypeInt_ne t3 t4 "año" _ (by decide) h4,
    colCells_melt_measure _ t3 _ _ _ _ h3 (by decide) (by decide),
    sourceCells_dropColIfPresent t1 "fuente_cuadro" yearCols (by decide),
    hrows1]
  rfl

theorem cuadro47_chain (df out : Table) (h : limpiar_cuadro47 df = .ok out) :
    ∃ t4 t5 : Table,
      colCells t4 "fallecidos" =
        sourceCells (retained df "departamento") yearCols
      ∧ dropnaCol t4 "fallecidos" = .ok t5
      ∧ astypeInt t5 "fallecidos" = .ok out := by
  rw [limpiar_cuadro47_eq] at h
  obtain ⟨t1, h1, h⟩ := (bind_eq_ok _ _ _).mp h
  obtain ⟨t3, h3, h⟩ := (bind_eq_ok _ _ _).mp h
  obtain ⟨t4, h4, h⟩ := (bind_eq_ok _ _ _).mp h
  obtain ⟨t5, h5, h⟩ := (bind_eq_ok _ _ _).mp h
  refine ⟨t4, t5, ?_, h5, h⟩
  obtain ⟨-, -, hrows1⟩ := filterNe_ok df t1 _ _ h1
  rw [colCells_astypeInt_ne t3 t4 "año" _ (by decide) h4,
    colCells_melt_measure _ t3 _ _ _ _ h3 (by decide) (by decide),
    sourceCells_dropColIfPresent _ "col_10" yearCols (by decide),
    sourceCells_dropColIfPresent _ "Unnamed: 6" yearCols (by decide),
    sourceCells_dropColIfPresent t1 "fuente_cuadro" yearCols (by decide),
    hrows1]
  rfl

theorem colCells_addMesNum_ne (t u : Table) (c : String)
    (hne : c ≠ "mes_num") (h : addMesNum t = .ok u) :
    colCells u c = colCells t c := by
  obtain ⟨-, -, hrows⟩ := addMesNum_ok t u h
  unfold colCells
  rw [hrows, List.map_map]
  exact map_eq_map _ _ _
    (fun r _ => lookupCell_append_single_ne c "mes_num" _ r hne)

theorem colCells_addHoraNum_ne (t u : Table) (c : String)
    (hne : c ≠ "hora_num") (h : addHoraNum t = .ok u) :
    colCells u c = colCells t c := by
  obtain ⟨-, -, -, hrows⟩ := addHoraNum_ok t u h
  unfold colCells
  rw [hrows, List.map_map]
  exact map_eq_map _ _ _
    (fun r _ => lookupCell_append_single_ne c "hora_num" _ r hne)

theorem cuadro7_conservation (df out : Table)
    (h : limpiar_cuadro7 df = .ok out) :
    colCells out "accidentes" =
      sourceCells ((retained df "hora_de_ocurrencia").filter
        (fun r => lookupCell r "hora_de_ocurrencia" != Cell.str "Ignorada"))
        diaCols := by
  rw [limpiar_cuadro7_eq] at h
  obtain ⟨tp, hp, h⟩ := (bind_eq_ok _ _ _).mp h
  rw [cuadro7_pre_eq] at hp
  obtain ⟨t1, h1, hp⟩ := (bind_eq_ok _ _ _).mp hp
  obtain ⟨t2, h2, hp⟩ := (bind_eq_ok _ _ _).mp hp
  obtain ⟨t4, h4, hp⟩ := (bind_eq_ok _ _ _).mp hp
  obtain ⟨-, -, hrows1⟩ := filterNe_ok df t1 _ _ h1
  obtain ⟨-, -, hrows2⟩ := filterNe_ok t1 t2 _ _ h2
  rw [colCells_addHoraNum_ne tp out "accidentes" (by decide) h,
    colCells_dropCol_ne t4 tp "total" "accidentes" (by decide) hp,
    colCells_melt_measure _ t4 _ _ _ _ h4 (by decide) (by decide),
    sourceCells_dropColIfPresent t2 "fuente_cuadro" diaCols (by decide),
    hrows2, hrows1]
  rfl

theorem cuadro9_conservation (df out : Table)
    (h : limpiar_cuadro9 df = .ok out) :
    colCells out "cantidad" =
      sourceCells (retained df "mes_de_ocurrencia") tipoCols := by
  rw [limpiar_cuadro9_eq] at h
  obtain ⟨t1, h1, h⟩ := (bind_eq_ok _ _ _).mp h
  obtain ⟨t3, h3, h⟩ := (bind_eq_ok _ _ _).mp h
  obtain ⟨t4, h4, h⟩ := (bind_eq_ok _ _ _).mp h
  obtain ⟨-, -, hrows1⟩ := filterNe_ok df t1 _ _ h1
  rw [colCells_addMesNum_ne t4 out "cantidad" (by decide) h,
    colCells_dropCol_ne t3 t4 "total" "cantidad" (by decide) h4,
    colCells_melt_measure _ t3 _ _ _ _ h3 (by decide) (by decide),
    sourceCells_dropColIfPresent t1 "fuente_cuadro" tipoCols (by decide),
    hrows1]
  rfl

/-- C3 amended: in the year-by-department pipelines (limpiar_cuadro1, 31 and
47), the emitted measure column is exactly the list of non-null value cells
of the rows kept by the Total drop, each replaced by its coerced integer:
rows with a null measure cell are dropped (removed by the filter in the
equation), never silently replaced by zero, and every emitted measure is an
integer cell - possibly negative, since no sign check exists.  In the
melt-only pipelines (limpiar_cuadro3, 7, 9 and 18), the measure cells are the
original value cells passed through verbatim, so records with null measure
are retained in the output and are likewise never replaced by zero. -/
theorem spec_c3_amended (d1 o1 d31 o31 d47 o47 d3 o3 d7 o7 d9 o9 d18 o18 :
    Table)
    (h1 : limpiar_cuadro1 d1 = .ok o1)
    (h31 : limpiar_cuadro31 d31 = .ok o31)
    (h47 : limpiar_cuadro47 d47 = .ok o47)
    (h3 : limpiar_cuadro3 d3 = .ok o3)
    (h7 : limpiar_cuadro7 d7 = .ok o7)
    (h9 : limpiar_cuadro9 d9 = .ok o9)
    (h18 : limpiar_cuadro18 d18 = .ok o18) :
    (colCells o1 "accidentes" =
        ((sourceCells (retained d1 "departamento") yearCols).filter
          (fun x => x != Cell.null)).map (fun x => Cell.num (cellVal x))
      ∧ ∀ r ∈ o1.rows, ∃ n : Int, lookupCell r "accidentes" = Cell.num n)
    ∧ (colCells o31 "lesionados" =
        ((sourceCells (retained d31 "departamento") yearCols).filter
          (fun x => x != Cell.null)).map (fun x => Cell.num (cellVal x))
      ∧ ∀ r ∈ o31.rows, ∃ n : Int, lookupCell r "lesionados" = Cell.num n)
    ∧ (colCells o47 "fallecidos" =
        ((sourceCells (retained d47 "departamento") yearCols).filter
          (fun x => x != Cell.null)).map (fun x => Cell.num (cellVal x))
      ∧ ∀ r ∈ o47.rows, ∃ n : Int, lookupCell r "fallecidos" = Cell.num n)
    ∧ colCells o3 "accidentes" =
        sourceCells (retained d3 "departamento") diaCols
    ∧ colCells o7 "accidentes" =
        sourceCells ((retained d7 "hora_de_ocurrencia").filter
          (fun r => lookupCell r "hora_de_ocurrencia" != Cell.str "Ignorada"))
          diaCols
    ∧ colCells o9 "cantidad" =
        sourceCells (retained d9 "mes_de_ocurrencia") tipoCols
    ∧ colCells o18 "cantidad" =
        sourceCells (retained d18 "tipo_de_vehiculo") tipoCols := by
  obtain ⟨t4a, t5a, hca, h5a, h6a⟩ := cuadro1_chain d1 o1 h1
  obtain ⟨t4b, t5b, hcb, h5b, h6b⟩ := cuadro31_chain d31 o31 h31
  obtain ⟨t4c, t5c, hcc, h5c, h6c⟩ := cuadro47_chain d47 o47 h47
  have e1 : colCells o1 "accidentes" =
      ((sourceCells (retained d1 "departamento") yearCols).filter
        (fun x => x != Cell.null)).map (fun x => Cell.num (cellVal x)) := by
    rw [final_astype_filter t4a t5a o1 "accidentes" h5a h6a, hca]
  have e31 : colCells o31 "lesionados" =
      ((sourceCells (retained d31 "departamento") yearCols).filter
        (fun x => x != Cell.null)).map (fun x => Cell.num (cellVal x)) := by
    rw [final_astype_filter t4b t5b o31 "lesionados" h5b h6b, hcb]
  have e47 : colCells o47 "fallecidos" =
      ((sourceCells (retained d47 "departamento") yearCols).filter
        (fun x => x != Cell.null)).map (fun x => Cell.num (cellVal x)) := by
    rw [final_astype_filter t4c t5c o47 "fallecidos" h5c h6c, hcc]
  exact ⟨⟨e1, measures_are_ints o1 "accidentes" _ e1⟩,
    ⟨e31, measures_are_ints o31 "lesionados" _ e31⟩,
    ⟨e47, measures_are_ints o47 "fallecidos" _ e47⟩,
    cuadro3_conservation d3 o3 h3, cuadro7_conservation d7 o7 h7,
    cuadro9_conservation d9 o9 h9, cuadro18_conservation d18 o18 h18⟩

/-- C3 amended witness: the amended invariant evaluated on seven concrete
tables, one per named function, each carrying a Total row and a missing
measure cell (and, for cuadro1, a negative measure): every year-pipeline
output carries exactly the coerced non-null cells, and every melt-only
output carries the original cells verbatim, null included. -/
theorem spec_c3_amended_witness :
    (colCells outC3b "accidentes" =
        ((sourceCells (retained dfC3b "departamento") yearCols).filter
          (fun x => x != Cell.null)).map (fun x => Cell.num (cellVal x))
      ∧ ∀ r ∈ outC3b.rows, ∃ n : Int, lookupCell r "accidentes" = Cell.num n)
    ∧ (colCells outC3c "lesionados" =
        ((sourceCells (retained dfC3c "departamento") yearCols).filter
          (fun x => x != Cell.null)).map (fun x => Cell.num (cellVal x))
      ∧ ∀ r ∈ outC3c.rows, ∃ n : Int, lookupCell r "lesionados" = Cell.num n)
    ∧ (colCells outC3d "fallecidos" =
        ((sourceCells (retained dfC3d "departamento") yearCols).filter
          (fun x => x != Cell.null)).map (fun x => Cell.num (cellVal x))
      ∧ ∀ r ∈ outC3d.rows, ∃ n : Int, lookupCell r "fallecidos" = Cell.num n)
    ∧ colCells outC3e "accidentes" =
        sourceCells (retained dfC3e "departamento") diaCols
    ∧ colCells outC3f "accidentes" =
        sourceCells ((retained dfC3f "hora_de_ocurrencia").filter
          (fun r =>
            lookupCell r "hora_de_ocurrencia" != Cell.str "Ignorada"))
          diaCols
    ∧ colCells outC3g "cantidad" =
        sourceCells (retained dfC3g "mes_de_ocurrencia") tipoCols
    ∧ colCells outC3a "cantidad" =
        sourceCells (retained dfC3a "tipo_de_vehiculo") tipoCols :=
  spec_c3_amended dfC3b outC3b dfC3c outC3c dfC3d outC3d dfC3e outC3e
    dfC3f outC3f dfC3g outC3g dfC3a outC3a (by decide) (by decide)
    (by decide) (by decide) (by decide) (by decide) (by decide)
